import Mathlib

/-!
# The unlocker engine of `app_unlocker.cpp`

A shallow embedding of `run_face_recognition` and `run_unlocker_engine`.

The engine is an orchestrator: all the work is done by calls into the camera
driver, the image converters and the face library.  Those calls are modelled by
their *outcomes*: every loop cycle receives a `CycleEnv` holding the value each
external call returns if the cycle makes it.  The functions below follow the
control flow of the source statement by statement, thread the local variables
and the file-scope variables `is_enrolling` and `mtmn_config` through an explicit
`EngineState`, and record every external call (with its arguments and its return
value) in a trace.

Pointers are handles.  A byte pointer remembers where its bytes live
(`BytePtr.frame_buf` for `fb->buf`, `BytePtr.heap` for a buffer malloc'ed by a
JPEG encoder), which is what the ownership properties are about.
-/

namespace Unlocker

/-! ## Constants and types -/

/-- The status `ESP_OK` of `esp_err.h`. -/
def ESP_OK : Int := 0

/-- The status `ESP_FAIL` of `esp_err.h`. -/
def ESP_FAIL : Int := -1

/-- Line 21: `#define ENROLL_CONFIRM_TIMES 5`. -/
def ENROLL_CONFIRM_TIMES : Int := 5

/-- Line 22: `#define FACE_ID_SAVE_NUMBER 7`. -/
def FACE_ID_SAVE_NUMBER : Nat := 7

/-- Width of an aligned face, `FACE_WIDTH` of the face library header `fr_forward.h`. -/
def FACE_WIDTH : Nat := 56

/-- Height of an aligned face, `FACE_HEIGHT` of the face library header `fr_forward.h`. -/
def FACE_HEIGHT : Nat := 56

/-- The pixel formats `pixformat_t` of the camera driver. -/
inductive pixformat_t
  | PIXFORMAT_RGB565
  | PIXFORMAT_YUV422
  | PIXFORMAT_GRAYSCALE
  | PIXFORMAT_JPEG
  | PIXFORMAT_RGB888
  | PIXFORMAT_RAW
  | PIXFORMAT_RGB444
  | PIXFORMAT_RGB555
  deriving DecidableEq, Repr

/-- A camera frame `camera_fb_t`; `buf` is the address of its bytes. -/
structure camera_fb_t where
  buf : Nat
  len : Nat
  width : Nat
  height : Nat
  format : pixformat_t
  deriving DecidableEq, Repr

/-- A `uint8_t *` as held in `_jpg_buf`: either the bytes of a camera frame
(`fb->buf`) or a heap buffer handed out by `frame2jpg` / `fmt2jpg`. -/
inductive BytePtr
  | frame_buf (addr : Nat)
  | heap (addr : Nat)
  deriving DecidableEq, Repr

/-- What `free` is applied to: the output bytes, or one of the four blocks of a
`box_array_t` (`net_boxes->score`, `->box`, `->landmark`, and `net_boxes` itself). -/
inductive HeapRef
  | bytes (p : BytePtr)
  | score (net_boxes : Nat)
  | box (net_boxes : Nat)
  | landmark (net_boxes : Nat)
  | boxes (net_boxes : Nat)
  deriving DecidableEq, Repr

/-- The lines written to `Serial`. -/
inductive Msg
  | could_not_allocate_face_recognition_buffer
  | enrolling_face_id (tail : Int)
  | enrolling_face_id_sample (tail : Int) (sample : Int)
  | enrolled_face_id (tail : Int)
  | match_face_id (matched_id : Int)
  | no_match_found
  | face_not_aligned
  | camera_capture_failed
  | jpeg_compression_failed
  | dl_matrix3du_alloc_failed
  | fmt2rgb888_failed
  | fmt2jpg_failed
  deriving DecidableEq, Repr

/-- A `float` constant as the source writes it, the decimal literal
`digits / 10 ^ decimals` (`0.707` is `707` with 3 decimals, `80` is `80` with none).
The variable holds the `float` this literal denotes; the engine does no arithmetic on
it, and the model only tells the literals apart. -/
structure float_literal where
  digits : Nat
  decimals : Nat
  deriving DecidableEq, Repr

/-- The resize type `mtmn_resize_type` of the face library. -/
inductive mtmn_resize_type
  | FAST
  | NORMAL
  deriving DecidableEq, Repr

/-- The thresholds `threshold_config_t` of one detector stage: `float score`,
`float nms`, `int candidate_number`. -/
structure threshold_config_t where
  score : float_literal
  nms : float_literal
  candidate_number : Int
  deriving DecidableEq, Repr

/-- The detector configuration `mtmn_config_t` of the face library. -/
structure mtmn_config_t where
  type : mtmn_resize_type
  min_face : float_literal
  pyramid : float_literal
  pyramid_times : Int
  p_threshold : threshold_config_t
  r_threshold : threshold_config_t
  o_threshold : threshold_config_t
  deriving DecidableEq, Repr

/-- One call out of the engine, with its arguments and the value it returned.
For the two JPEG encoders the returned value is `some (addr, len)` when the call
returns `true` (the out-parameters were written with a fresh heap buffer) and
`none` when it returns `false` (the out-parameters were left unwritten). -/
inductive Call
  | esp_camera_fb_get (ret : Option camera_fb_t)
  | esp_camera_fb_return (fb : camera_fb_t)
  | frame2jpg (fb : camera_fb_t) (quality : Nat) (ret : Option (Nat × Nat))
  | fmt2jpg (src : Nat) (src_len : Nat) (width : Nat) (height : Nat)
      (format : pixformat_t) (quality : Nat) (ret : Option (Nat × Nat))
  | dl_matrix3du_alloc (n : Nat) (w : Nat) (h : Nat) (c : Nat) (ret : Option Nat)
  | dl_matrix3du_free (m : Nat)
  | fmt2rgb888 (src : Nat) (src_len : Nat) (format : pixformat_t) (dst : Nat) (ret : Bool)
  | face_detect (image_matrix : Nat) (config : mtmn_config_t) (ret : Option Nat)
  | align_face (net_boxes : Nat) (image_matrix : Nat) (aligned_face : Nat) (ret : Int)
  | enroll_face (aligned_face : Nat) (ret : Int)
  | recognize_face (aligned_face : Nat) (ret : Int)
  | free (p : HeapRef)
  | print (m : Msg)
  deriving DecidableEq, Repr

/-- The outcomes of the external calls of one `run_face_recognition`. -/
structure FaceEnv where
  /-- Result of `dl_matrix3du_alloc(1, FACE_WIDTH, FACE_HEIGHT, 3)`: the buffer, or NULL. -/
  aligned_face : Option Nat
  /-- The status returned by `align_face`. -/
  align_face : Int
  /-- The remaining-sample count returned by `enroll_face`. -/
  enroll_face : Int
  /-- The value of `id_list.tail` read by the progress messages. -/
  id_list_tail : Int
  /-- The id returned by `recognize_face`. -/
  recognize_face : Int
  deriving DecidableEq, Repr

/-- The outcomes of the external calls of one loop cycle. -/
structure CycleEnv where
  /-- Result of `esp_camera_fb_get()`: the frame, or NULL. -/
  esp_camera_fb_get : Option camera_fb_t
  /-- Result of `frame2jpg`: the buffer and length written on success. -/
  frame2jpg : Option (Nat × Nat)
  /-- Result of `dl_matrix3du_alloc(1, fb->width, fb->height, 3)`: the matrix, or NULL. -/
  dl_matrix3du_alloc : Option Nat
  /-- Result of `fmt2rgb888`: whether the conversion succeeded. -/
  fmt2rgb888 : Bool
  /-- Result of `face_detect`: the box array, or NULL when no face was found. -/
  face_detect : Option Nat
  /-- The calls made by `run_face_recognition`. -/
  face : FaceEnv
  /-- Result of `fmt2jpg`: the buffer and length written on success. -/
  fmt2jpg : Option (Nat × Nat)
  deriving DecidableEq, Repr

/-- The locals of `run_unlocker_engine` together with the two file-scope variables
the engine uses by name, `is_enrolling` and `mtmn_config`. -/
structure EngineState where
  fb : Option camera_fb_t
  res : Int
  image_matrix : Option Nat
  _jpg_buf : Option BytePtr
  _jpg_buf_len : Nat
  detected : Bool
  face_id : Int
  is_enrolling : Int
  mtmn_config : mtmn_config_t
  deriving DecidableEq, Repr

/-! ## `run_face_recognition` (lines 28-80) -/

/-- What one call of `run_face_recognition` leaves behind: the returned
`matched_id`, the global `is_enrolling`, and the calls it made. -/
structure FaceRecResult where
  matched_id : Int
  is_enrolling : Int
  calls : List Call
  deriving DecidableEq, Repr

/-- Lines 28-80. -/
def run_face_recognition (env : FaceEnv) (is_enrolling : Int)
    (image_matrix net_boxes : Nat) : FaceRecResult :=
  let matched_id : Int := 0
  let t0 := [Call.dl_matrix3du_alloc 1 FACE_WIDTH FACE_HEIGHT 3 env.aligned_face]
  match env.aligned_face with
  | none =>
    ⟨matched_id, is_enrolling, t0 ++ [.print .could_not_allocate_face_recognition_buffer]⟩
  | some aligned_face =>
    let t1 := t0 ++ [.align_face net_boxes image_matrix aligned_face env.align_face]
    if env.align_face = ESP_OK then
      if is_enrolling = 1 then
        let left_sample_face := env.enroll_face
        let t2 := t1 ++ [.enroll_face aligned_face left_sample_face]
        let t3 :=
          if left_sample_face = ENROLL_CONFIRM_TIMES - 1 then
            t2 ++ [.print (.enrolling_face_id env.id_list_tail)]
          else t2
        let t4 := t3 ++ [.print (.enrolling_face_id_sample env.id_list_tail
                            (ENROLL_CONFIRM_TIMES - left_sample_face))]
        if left_sample_face = 0 then
          ⟨matched_id, 0,
            t4 ++ [.print (.enrolled_face_id env.id_list_tail), .dl_matrix3du_free aligned_face]⟩
        else
          ⟨matched_id, is_enrolling, t4 ++ [.dl_matrix3du_free aligned_face]⟩
      else
        let matched_id := env.recognize_face
        let t2 := t1 ++ [.recognize_face aligned_face matched_id]
        if matched_id ≥ 0 then
          ⟨matched_id, is_enrolling,
            t2 ++ [.print (.match_face_id matched_id), .dl_matrix3du_free aligned_face]⟩
        else
          ⟨-1, is_enrolling, t2 ++ [.print .no_match_found, .dl_matrix3du_free aligned_face]⟩
    else
      ⟨matched_id, is_enrolling, t1 ++ [.print .face_not_aligned, .dl_matrix3du_free aligned_face]⟩

/-! ## `run_unlocker_engine` (lines 82-197) -/

/-- The effect of a JPEG encoder on its out-parameters `&_jpg_buf, &_jpg_buf_len`:
written on success, untouched on failure. -/
def write_out (ret : Option (Nat × Nat)) (s : EngineState) : EngineState :=
  match ret with
  | some (addr, len) => { s with _jpg_buf := some (.heap addr), _jpg_buf_len := len }
  | none => s

/-- Lines 96-174: one pass through the loop body up to the release step. -/
def cycle_body (env : CycleEnv) (s : EngineState) : EngineState × List Call :=
  let s := { s with detected := false, face_id := 0, fb := env.esp_camera_fb_get }
  let t := [Call.esp_camera_fb_get env.esp_camera_fb_get]
  match env.esp_camera_fb_get with
  | none => ({ s with res := ESP_FAIL }, t ++ [.print .camera_capture_failed])
  | some fb =>
    if fb.width > 400 then
      if fb.format ≠ .PIXFORMAT_JPEG then
        let jpeg_converted := env.frame2jpg.isSome
        let s := write_out env.frame2jpg s
        let t := t ++ [.frame2jpg fb 80 env.frame2jpg, .esp_camera_fb_return fb]
        let s := { s with fb := none }
        if !jpeg_converted then
          ({ s with res := ESP_FAIL }, t ++ [.print .jpeg_compression_failed])
        else (s, t)
      else
        ({ s with _jpg_buf_len := fb.len, _jpg_buf := some (.frame_buf fb.buf) }, t)
    else
      let s := { s with image_matrix := env.dl_matrix3du_alloc }
      let t := t ++ [.dl_matrix3du_alloc 1 fb.width fb.height 3 env.dl_matrix3du_alloc]
      match env.dl_matrix3du_alloc with
      | none => ({ s with res := ESP_FAIL }, t ++ [.print .dl_matrix3du_alloc_failed])
      | some image_matrix =>
        let t := t ++ [.fmt2rgb888 fb.buf fb.len fb.format image_matrix env.fmt2rgb888]
        if !env.fmt2rgb888 then
          ({ s with res := ESP_FAIL },
            t ++ [.print .fmt2rgb888_failed, .dl_matrix3du_free image_matrix])
        else
          let t := t ++ [.face_detect image_matrix s.mtmn_config env.face_detect]
          if env.face_detect.isSome ∨ fb.format ≠ .PIXFORMAT_JPEG then
            let st : EngineState × List Call :=
              match env.face_detect with
              | some net_boxes =>
                let r := run_face_recognition env.face s.is_enrolling image_matrix net_boxes
                ({ s with detected := true, face_id := r.matched_id,
                          is_enrolling := r.is_enrolling },
                  t ++ r.calls ++ [.free (.score net_boxes), .free (.box net_boxes),
                    .free (.landmark net_boxes), .free (.boxes net_boxes)])
              | none => (s, t)
            let t := st.2 ++ [.fmt2jpg image_matrix (fb.width * fb.height * 3 % 2 ^ 32)
                      (fb.width % 2 ^ 16) (fb.height % 2 ^ 16) .PIXFORMAT_RGB888 90 env.fmt2jpg]
            let encoded := env.fmt2jpg.isSome
            let s := write_out env.fmt2jpg st.1
            let st : EngineState × List Call :=
              if !encoded then ({ s with res := ESP_FAIL }, t ++ [.print .fmt2jpg_failed])
              else (s, t)
            ({ st.1 with fb := none },
              st.2 ++ [.esp_camera_fb_return fb, .dl_matrix3du_free image_matrix])
          else
            ({ s with _jpg_buf := some (.frame_buf fb.buf), _jpg_buf_len := fb.len },
              t ++ [.dl_matrix3du_free image_matrix])

/-- Lines 176-189: the release step. -/
def release_buffer (s : EngineState) : EngineState × List Call :=
  match s.fb with
  | some fb => ({ s with fb := none, _jpg_buf := none }, [.esp_camera_fb_return fb])
  | none =>
    match s._jpg_buf with
    | some p => ({ s with _jpg_buf := none }, [.free (.bytes p)])
    | none => (s, [])

/-- One loop cycle as it happened: the outcomes it met, the state it started
from, the state at the release step, the state at the loop test, and the calls
made before and during the release step. -/
structure CycleRecord where
  env : CycleEnv
  start : EngineState
  at_release : EngineState
  finish : EngineState
  body : List Call
  release : List Call
  deriving DecidableEq, Repr

/-- All calls of a cycle, in order. -/
def CycleRecord.calls (c : CycleRecord) : List Call := c.body ++ c.release

/-- Lines 96-189: the loop body, release step included. -/
def cycle (env : CycleEnv) (s : EngineState) : CycleRecord :=
  let b := cycle_body env s
  let r := release_buffer b.1
  { env := env, start := s, at_release := b.1, finish := r.1, body := b.2, release := r.2 }

/-- A run of the engine: `returned` is the status handed to the caller, or
`none` while the loop is still running (the outcomes supplied were used up). -/
structure Run where
  returned : Option Int
  final : EngineState
  cycles : List CycleRecord
  deriving DecidableEq, Repr

/-- Lines 94-196: `while (true) { ...; if (res != ESP_OK) break; } return res;`
driven by the outcomes of the successive cycles. -/
def engine_loop : List CycleEnv → EngineState → Run
  | [], s => { returned := none, final := s, cycles := [] }
  | env :: envs, s =>
    let c := cycle env s
    if c.finish.res ≠ ESP_OK then
      { returned := some c.finish.res, final := c.finish, cycles := [c] }
    else
      let r := engine_loop envs c.finish
      { r with cycles := c :: r.cycles }

/-- Lines 84-92: the locals at entry, with the file-scope variables `is_enrolling` and
`mtmn_config` as found. -/
def init_state (is_enrolling : Int) (mtmn_config : mtmn_config_t) : EngineState :=
  { fb := none, res := ESP_OK, image_matrix := none, _jpg_buf := none, _jpg_buf_len := 0,
    detected := false, face_id := 0, is_enrolling := is_enrolling,
    mtmn_config := mtmn_config }

/-- Lines 82-197, entered with the given values of `is_enrolling` and `mtmn_config`. -/
def run_unlocker_engine (envs : List CycleEnv) (is_enrolling : Int)
    (mtmn_config : mtmn_config_t) : Run :=
  engine_loop envs (init_state is_enrolling mtmn_config)

/-- All calls of a run, in order. -/
def Run.calls (r : Run) : List Call := r.cycles.flatMap CycleRecord.calls

/-! ## Observations on traces -/

/-- The call is `enroll_face`. -/
def Call.is_enroll_face : Call → Bool
  | .enroll_face _ _ => true
  | _ => false

/-- The call is `recognize_face`. -/
def Call.is_recognize_face : Call → Bool
  | .recognize_face _ _ => true
  | _ => false

/-- The call is `esp_camera_fb_get`. -/
def Call.is_fb_get : Call → Bool
  | .esp_camera_fb_get _ => true
  | _ => false

/-- The call is `esp_camera_fb_return`. -/
def Call.is_fb_return : Call → Bool
  | .esp_camera_fb_return _ => true
  | _ => false

/-- The call is `face_detect`. -/
def Call.is_face_detect : Call → Bool
  | .face_detect _ _ _ => true
  | _ => false

/-- The call is one of the JPEG encoders `frame2jpg`, `fmt2jpg`. -/
def Call.is_jpg_encode : Call → Bool
  | .frame2jpg _ _ _ => true
  | .fmt2jpg _ _ _ _ _ _ _ => true
  | _ => false

/-- The call is `free` applied to output bytes (`free(_jpg_buf)`). -/
def Call.is_free_bytes : Call → Bool
  | .free (.bytes _) => true
  | _ => false

/-- The call is `free` applied to a pointer into a camera frame. -/
def Call.is_free_frame_bytes : Call → Bool
  | .free (.bytes (.frame_buf _)) => true
  | _ => false

/-- The value returned by the call when it is `enroll_face`. -/
def Call.enroll_face_ret : Call → Option Int
  | .enroll_face _ ret => some ret
  | _ => none

/-- The call is anything but a line written to `Serial`. -/
def Call.is_operation : Call → Bool
  | .print _ => false
  | _ => true

/-! ## The enrollment counter -/

/-- Modelled from the spec: `enroll_face` of the face library, whose source is not part
of the repository, as the counter of the samples still wanted that the enrollment protocol
describes: a call decrements the counter and returns the new value
(`(returned value, counter afterwards)`). -/
def enroll_face_counter (remaining : Int) : Int × Int :=
  (remaining - 1, remaining - 1)

/-- Consecutive calls of `run_face_recognition` against `enroll_face_counter`:
each call is given, as the outcome of `enroll_face`, what the counter returns,
and the counter advances exactly when the call invoked `enroll_face`.  The
flag `is_enrolling` is carried from one call to the next. -/
def enrollment_calls : List FaceEnv → Int → Int → Nat → Nat → List FaceRecResult
  | [], _, _, _, _ => []
  | env :: envs, is_enrolling, remaining, image_matrix, net_boxes =>
    let r := run_face_recognition { env with enroll_face := (enroll_face_counter remaining).1 }
      is_enrolling image_matrix net_boxes
    let remaining :=
      if r.calls.any Call.is_enroll_face then (enroll_face_counter remaining).2 else remaining
    r :: enrollment_calls envs r.is_enrolling remaining image_matrix net_boxes

/-! ## Failures of the conversion calls -/

/-- The cycle on frame `fb` reaches a JPEG encoder (`frame2jpg` for an oversize frame
that is not JPEG, `fmt2jpg` after detection) and that call returns `false`. -/
def encode_fails (env : CycleEnv) (fb : camera_fb_t) : Bool :=
  if fb.width > 400 then
    decide (fb.format ≠ .PIXFORMAT_JPEG) && env.frame2jpg.isNone
  else
    env.dl_matrix3du_alloc.isSome && env.fmt2rgb888
      && (env.face_detect.isSome || decide (fb.format ≠ .PIXFORMAT_JPEG))
      && env.fmt2jpg.isNone

/-- The cycle on frame `fb` meets a conversion failure: the image matrix cannot be
allocated, `fmt2rgb888` fails, or the JPEG encoder it reaches fails. -/
def conversion_fails (env : CycleEnv) (fb : camera_fb_t) : Bool :=
  (decide (fb.width ≤ 400) && (env.dl_matrix3du_alloc.isNone || !env.fmt2rgb888))
    || encode_fails env fb

/-! ## Sample frames and outcomes -/

/-- A 320x240 RGB565 frame. -/
def frame_qvga_rgb565 : camera_fb_t :=
  { buf := 4096, len := 153600, width := 320, height := 240, format := .PIXFORMAT_RGB565 }

/-- A 320x240 JPEG frame. -/
def frame_qvga_jpeg : camera_fb_t :=
  { buf := 4096, len := 9000, width := 320, height := 240, format := .PIXFORMAT_JPEG }

/-- A 400x296 JPEG frame: the widest frame that is sent to the detector. -/
def frame_cif_jpeg : camera_fb_t :=
  { buf := 4096, len := 12000, width := 400, height := 296, format := .PIXFORMAT_JPEG }

/-- An 800x600 JPEG frame. -/
def frame_svga_jpeg : camera_fb_t :=
  { buf := 4096, len := 40000, width := 800, height := 600, format := .PIXFORMAT_JPEG }

/-- An 800x600 RGB565 frame. -/
def frame_svga_rgb565 : camera_fb_t :=
  { buf := 4096, len := 960000, width := 800, height := 600, format := .PIXFORMAT_RGB565 }

/-- Outcomes of `run_face_recognition` with every call succeeding: alignment is fine,
`enroll_face` reports 1 sample left, `recognize_face` finds identity 3. -/
def face_ok : FaceEnv :=
  { aligned_face := some 700, align_face := ESP_OK, enroll_face := 1, id_list_tail := 0,
    recognize_face := 3 }

/-- As `face_ok`, but `align_face` fails. -/
def face_not_aligned : FaceEnv := { face_ok with align_face := ESP_FAIL }

/-- A cycle in which every call succeeds and the detector finds a face in `fb`. -/
def env_face (fb : camera_fb_t) : CycleEnv :=
  { esp_camera_fb_get := some fb, frame2jpg := some (9000, 5000),
    dl_matrix3du_alloc := some 500, fmt2rgb888 := true, face_detect := some 600,
    face := face_ok, fmt2jpg := some (9100, 6000) }

/-- A cycle in which every call succeeds and the detector finds no face in `fb`. -/
def env_no_face (fb : camera_fb_t) : CycleEnv := { env_face fb with face_detect := none }

/-- A cycle in which the camera delivers no frame. -/
def env_no_frame : CycleEnv := { env_face frame_qvga_jpeg with esp_camera_fb_get := none }

/-- A cycle on `fb` in which the image matrix cannot be allocated. -/
def env_alloc_fails (fb : camera_fb_t) : CycleEnv :=
  { env_face fb with dl_matrix3du_alloc := none }

/-- A cycle on `fb` in which `fmt2rgb888` fails. -/
def env_rgb_fails (fb : camera_fb_t) : CycleEnv := { env_face fb with fmt2rgb888 := false }

/-- A cycle on `fb` in which both JPEG encoders fail. -/
def env_encode_fails (fb : camera_fb_t) : CycleEnv :=
  { env_face fb with frame2jpg := none, fmt2jpg := none }

/-- A cycle on `fb` in which a face is found but cannot be aligned. -/
def env_not_aligned (fb : camera_fb_t) : CycleEnv :=
  { env_face fb with face := face_not_aligned }

/-- The call is `dl_matrix3du_alloc`. -/
def Call.is_matrix_alloc : Call → Bool
  | .dl_matrix3du_alloc _ _ _ _ _ => true
  | _ => false

/-- The call is `dl_matrix3du_free`. -/
def Call.is_matrix_free : Call → Bool
  | .dl_matrix3du_free _ => true
  | _ => false

/-- The call is `fmt2jpg`. -/
def Call.is_fmt2jpg : Call → Bool
  | .fmt2jpg _ _ _ _ _ _ _ => true
  | _ => false

/-- The call is `free` applied to a block of a box array. -/
def Call.is_free_box_array : Call → Bool
  | .free (.bytes _) => false
  | .free _ => true
  | _ => false

/-- The heap buffer a successful JPEG encoder call wrote to its out-parameter. -/
def Call.encoded_buffer : Call → Option Nat
  | .frame2jpg _ _ (some p) => some p.1
  | .fmt2jpg _ _ _ _ _ _ (some p) => some p.1
  | _ => none

/-- The cycle meets a failure: the camera delivers no frame, or a conversion fails. -/
def cycle_fails (env : CycleEnv) : Bool :=
  match env.esp_camera_fb_get with
  | none => true
  | some fb => conversion_fails env fb

/-! ## Bootstrap (lines 24-26 and 199-228) -/

/-- The bookkeeping fields of the identity store `face_id_list` of the face library. -/
structure face_id_list where
  head : Nat
  tail : Nat
  count : Nat
  size : Nat
  confirm_times : Nat
  deriving DecidableEq, Repr

/-- The file-scope variables of lines 24-26. -/
structure Globals where
  mtmn_config : mtmn_config_t
  is_enrolling : Int
  id_list : face_id_list
  deriving DecidableEq, Repr

/-- Lines 24-26: the initialisers `{0}`, `0`, `{0}`. -/
def globals_at_load : Globals :=
  { mtmn_config :=
      { type := .FAST, min_face := ⟨0, 0⟩, pyramid := ⟨0, 0⟩, pyramid_times := 0,
        p_threshold := { score := ⟨0, 0⟩, nms := ⟨0, 0⟩, candidate_number := 0 },
        r_threshold := { score := ⟨0, 0⟩, nms := ⟨0, 0⟩, candidate_number := 0 },
        o_threshold := { score := ⟨0, 0⟩, nms := ⟨0, 0⟩, candidate_number := 0 } },
    is_enrolling := 0,
    id_list := { head := 0, tail := 0, count := 0, size := 0, confirm_times := 0 } }

/-- Lines 199-214. -/
def mtmn_init (g : Globals) : Globals :=
  { g with mtmn_config :=
      { g.mtmn_config with
        type := .FAST,
        min_face := ⟨80, 0⟩,
        pyramid := ⟨707, 3⟩,
        pyramid_times := 4,
        p_threshold := { score := ⟨6, 1⟩, nms := ⟨7, 1⟩, candidate_number := 20 },
        r_threshold := { score := ⟨7, 1⟩, nms := ⟨7, 1⟩, candidate_number := 10 },
        o_threshold := { score := ⟨7, 1⟩, nms := ⟨7, 1⟩, candidate_number := 1 } } }

/-- The configuration `mtmn_init` leaves in `mtmn_config`. -/
def mtmn_config_ready : mtmn_config_t := (mtmn_init globals_at_load).mtmn_config

/-- Modelled from the spec: `face_id_init` of the face library, whose source is not part
of the repository, as the `init(store, capacity, confirm_count)` of the IdentityStore
capability: an empty store of the given capacity and confirm-count. -/
def face_id_init (_l : face_id_list) (size confirm_times : Nat) : face_id_list :=
  { head := 0, tail := 0, count := 0, size := size, confirm_times := confirm_times }

/-- The calls of `startMainEngine`. -/
inductive BootCall
  | mtmn_init
  | face_id_init (size : Nat) (confirm_times : Nat)
  | run_unlocker_engine
  deriving DecidableEq, Repr

/-- What `startMainEngine` does: its calls in order, the file-scope variables as
`face_id_init` finds them and as the engine loop finds them, the run of the engine, and
`mtmn_config` and `is_enrolling` as the engine leaves them (the store is then whatever the
face library made of it). -/
structure Boot where
  calls : List BootCall
  at_face_id_init : Globals
  at_engine_entry : Globals
  run : Run
  mtmn_config_at_exit : mtmn_config_t
  is_enrolling_at_exit : Int
  deriving DecidableEq, Repr

/-- Lines 223-228. -/
def startMainEngine (envs : List CycleEnv) (g : Globals) : Boot :=
  let g1 := mtmn_init g
  let id_list := face_id_init g1.id_list FACE_ID_SAVE_NUMBER ENROLL_CONFIRM_TIMES.toNat
  let g2 := { g1 with id_list := id_list }
  let r := run_unlocker_engine envs g2.is_enrolling g2.mtmn_config
  { calls := [.mtmn_init, .face_id_init FACE_ID_SAVE_NUMBER ENROLL_CONFIRM_TIMES.toNat,
      .run_unlocker_engine],
    at_face_id_init := g1,
    at_engine_entry := g2,
    run := r,
    mtmn_config_at_exit := r.final.mtmn_config,
    is_enrolling_at_exit := r.final.is_enrolling }

end Unlocker

namespace Unlocker

/-! ## `run_face_recognition` -/

/-- C4: in every call of `run_face_recognition` at most one of `enroll_face` and
`recognize_face` is invoked; while `is_enrolling == 1` `recognize_face` is never invoked,
and while the flag is clear (any other value, 0 in particular) `enroll_face` is never
invoked. -/
theorem run_face_recognition_exclusive (env : FaceEnv) (is_enrolling : Int)
    (image_matrix net_boxes : Nat) :
    ((run_face_recognition env is_enrolling image_matrix net_boxes).calls.countP
        Call.is_enroll_face
      + (run_face_recognition env is_enrolling image_matrix net_boxes).calls.countP
        Call.is_recognize_face ≤ 1)
    ∧ (is_enrolling = 1 →
        (run_face_recognition env is_enrolling image_matrix net_boxes).calls.countP
          Call.is_recognize_face = 0)
    ∧ (is_enrolling ≠ 1 →
        (run_face_recognition env is_enrolling image_matrix net_boxes).calls.countP
          Call.is_enroll_face = 0) := by
  obtain ⟨aligned, align, enroll, tail, recog⟩ := env
  cases aligned <;>
    simp only [run_face_recognition] <;>
    (try split_ifs) <;>
    simp_all [Call.is_enroll_face, Call.is_recognize_face, List.countP_cons, List.countP_nil]


/-- C9: with the enrollment flag clear and a successful alignment, `run_face_recognition`
calls `recognize_face` exactly once, returns `r` when `recognize_face` returned `r >= 0`,
and returns the not-found sentinel `-1` for every negative value it returned. -/
theorem run_face_recognition_result (env : FaceEnv) (is_enrolling : Int)
    (image_matrix net_boxes aligned_face : Nat)
    (hflag : is_enrolling ≠ 1)
    (halloc : env.aligned_face = some aligned_face)
    (halign : env.align_face = ESP_OK) :
    (run_face_recognition env is_enrolling image_matrix net_boxes).calls.filter
        Call.is_recognize_face = [Call.recognize_face aligned_face env.recognize_face]
    ∧ (0 ≤ env.recognize_face →
        (run_face_recognition env is_enrolling image_matrix net_boxes).matched_id
          = env.recognize_face)
    ∧ (env.recognize_face < 0 →
        (run_face_recognition env is_enrolling image_matrix net_boxes).matched_id = -1) := by
  obtain ⟨aligned, align, enroll, tail, recog⟩ := env
  simp only at halloc halign
  subst halloc halign
  simp only [run_face_recognition, if_neg hflag, if_true]
  split_ifs with h <;>
    simp_all [Call.is_recognize_face, List.filter_cons, Int.not_le]

/-- C9, at a concrete call: flag clear, `recognize_face` returns 3 and then -7. -/
theorem run_face_recognition_result_witness :
    ((run_face_recognition ⟨some 9, ESP_OK, 0, 0, 3⟩ 0 1 2).calls.filter
        Call.is_recognize_face = [Call.recognize_face 9 3]
      ∧ (run_face_recognition ⟨some 9, ESP_OK, 0, 0, 3⟩ 0 1 2).matched_id = 3)
    ∧ (run_face_recognition ⟨some 9, ESP_OK, 0, 0, -7⟩ 0 1 2).matched_id = -1 :=
  ⟨⟨(run_face_recognition_result ⟨some 9, ESP_OK, 0, 0, 3⟩ 0 1 2 9 (by decide) rfl rfl).1,
    (run_face_recognition_result ⟨some 9, ESP_OK, 0, 0, 3⟩ 0 1 2 9 (by decide) rfl rfl).2.1
      (by decide)⟩,
   (run_face_recognition_result ⟨some 9, ESP_OK, 0, 0, -7⟩ 0 1 2 9 (by decide) rfl rfl).2.2
      (by decide)⟩


/-- A call with the flag set and a successful alignment takes exactly one sample. -/
theorem run_face_recognition_enrolling (env : FaceEnv) (image_matrix net_boxes : Nat)
    (halloc : env.aligned_face.isSome = true) (halign : env.align_face = ESP_OK) :
    (run_face_recognition env 1 image_matrix net_boxes).calls.filterMap Call.enroll_face_ret
        = [env.enroll_face]
    ∧ (run_face_recognition env 1 image_matrix net_boxes).calls.any Call.is_enroll_face = true
    ∧ (run_face_recognition env 1 image_matrix net_boxes).is_enrolling
        = if env.enroll_face = 0 then 0 else 1 := by
  obtain ⟨aligned, align, enroll, tail, recog⟩ := env
  cases aligned with
  | none => simp at halloc
  | some a =>
    simp only at halign
    subst halign
    simp only [run_face_recognition, if_true]
    split_ifs <;>
      simp_all [Call.enroll_face_ret, Call.is_enroll_face, List.filterMap_cons]

/-- C7: with `enroll_face` modelled as a counter starting at `ENROLL_CONFIRM_TIMES = 5`
that returns the decremented value, five consecutive calls of `run_face_recognition` with
successful alignment, starting from `is_enrolling = 1`, observe the remaining-sample
values 4, 3, 2, 1, 0; `is_enrolling` is still 1 after each of the first four calls and 0
after the fifth.  In general a call that takes a sample clears the flag if and only if
`enroll_face` returned 0, and leaves it at 1 otherwise. -/
theorem enrollment_protocol :
    (∀ (envs : List FaceEnv) (image_matrix net_boxes : Nat),
      envs.length = 5 →
      (∀ env ∈ envs, env.aligned_face.isSome = true ∧ env.align_face = ESP_OK) →
      (enrollment_calls envs 1 ENROLL_CONFIRM_TIMES image_matrix net_boxes).map
          (fun r => (r.calls.filterMap Call.enroll_face_ret, r.is_enrolling))
        = [([4], 1), ([3], 1), ([2], 1), ([1], 1), ([0], 0)])
    ∧ (∀ (env : FaceEnv) (image_matrix net_boxes : Nat),
        env.aligned_face.isSome = true → env.align_face = ESP_OK →
        ((run_face_recognition env 1 image_matrix net_boxes).is_enrolling = 0
            ↔ env.enroll_face = 0)
        ∧ (env.enroll_face ≠ 0 →
            (run_face_recognition env 1 image_matrix net_boxes).is_enrolling = 1)) := by
  refine ⟨?_, ?_⟩
  · intro envs image_matrix net_boxes hlen hall
    match envs, hlen with
    | [e1, e2, e3, e4, e5], _ =>
      simp only [List.mem_cons, List.mem_singleton, forall_eq_or_imp, forall_eq,
        List.not_mem_nil, false_implies, implies_true, and_true] at hall
      obtain ⟨⟨a1, o1⟩, ⟨a2, o2⟩, ⟨a3, o3⟩, ⟨a4, o4⟩, ⟨a5, o5⟩⟩ := hall
      have k1 := run_face_recognition_enrolling { e1 with enroll_face := 4 }
        image_matrix net_boxes a1 o1
      have k2 := run_face_recognition_enrolling { e2 with enroll_face := 3 }
        image_matrix net_boxes a2 o2
      have k3 := run_face_recognition_enrolling { e3 with enroll_face := 2 }
        image_matrix net_boxes a3 o3
      have k4 := run_face_recognition_enrolling { e4 with enroll_face := 1 }
        image_matrix net_boxes a4 o4
      have k5 := run_face_recognition_enrolling { e5 with enroll_face := 0 }
        image_matrix net_boxes a5 o5
      simp only [OfNat.ofNat_ne_zero, one_ne_zero, if_false, if_true] at k1 k2 k3 k4 k5
      simp [enrollment_calls, enroll_face_counter, ENROLL_CONFIRM_TIMES, k1, k2, k3, k4, k5]
  · intro env image_matrix net_boxes halloc halign
    have k := run_face_recognition_enrolling env image_matrix net_boxes halloc halign
    rw [k.2.2]
    constructor
    · split_ifs with h <;> simp [h]
    · intro h
      simp [h]


/-- The calls of `run_face_recognition` are none of those the engine counts for the
frame, the detector, the encoders and the output bytes. -/
theorem run_face_recognition_calls_local (env : FaceEnv) (is_enrolling : Int)
    (image_matrix net_boxes : Nat) :
    ∀ x ∈ (run_face_recognition env is_enrolling image_matrix net_boxes).calls,
      x.is_fb_return = false ∧ x.is_fb_get = false ∧ x.is_face_detect = false
      ∧ x.is_jpg_encode = false ∧ x.is_free_bytes = false ∧ x.is_free_frame_bytes = false := by
  obtain ⟨aligned, align, enroll, tail, recog⟩ := env
  cases aligned <;>
    simp only [run_face_recognition] <;>
    (try split_ifs) <;>
    simp [Call.is_fb_return, Call.is_fb_get, Call.is_face_detect, Call.is_jpg_encode,
      Call.is_free_bytes, Call.is_free_frame_bytes]

/-- The function `run_face_recognition` never returns a frame. -/
theorem run_face_recognition_filter_fb_return (env : FaceEnv) (is_enrolling : Int)
    (image_matrix net_boxes : Nat) :
    (run_face_recognition env is_enrolling image_matrix net_boxes).calls.filter
      Call.is_fb_return = [] :=
  List.filter_eq_nil_iff.2 fun x hx => by
    simp [(run_face_recognition_calls_local env is_enrolling image_matrix net_boxes x hx).1]

/-- The function `run_face_recognition` never acquires a frame. -/
theorem run_face_recognition_countP_fb_get (env : FaceEnv) (is_enrolling : Int)
    (image_matrix net_boxes : Nat) :
    (run_face_recognition env is_enrolling image_matrix net_boxes).calls.countP
      Call.is_fb_get = 0 :=
  List.countP_eq_zero.2 fun x hx => by
    simp [(run_face_recognition_calls_local env is_enrolling image_matrix net_boxes x hx).2.1]

/-- The function `run_face_recognition` never calls the detector. -/
theorem run_face_recognition_countP_face_detect (env : FaceEnv) (is_enrolling : Int)
    (image_matrix net_boxes : Nat) :
    (run_face_recognition env is_enrolling image_matrix net_boxes).calls.countP
      Call.is_face_detect = 0 :=
  List.countP_eq_zero.2 fun x hx => by
    simp [(run_face_recognition_calls_local env is_enrolling image_matrix net_boxes x hx).2.2.1]

/-- The function `run_face_recognition` never calls a JPEG encoder. -/
theorem run_face_recognition_countP_jpg_encode (env : FaceEnv) (is_enrolling : Int)
    (image_matrix net_boxes : Nat) :
    (run_face_recognition env is_enrolling image_matrix net_boxes).calls.countP
      Call.is_jpg_encode = 0 :=
  List.countP_eq_zero.2 fun x hx => by
    simp [(run_face_recognition_calls_local env is_enrolling image_matrix net_boxes
      x hx).2.2.2.1]

/-- The function `run_face_recognition` never frees output bytes. -/
theorem run_face_recognition_countP_free_bytes (env : FaceEnv) (is_enrolling : Int)
    (image_matrix net_boxes : Nat) :
    (run_face_recognition env is_enrolling image_matrix net_boxes).calls.countP
      Call.is_free_bytes = 0 :=
  List.countP_eq_zero.2 fun x hx => by
    simp [(run_face_recognition_calls_local env is_enrolling image_matrix net_boxes
      x hx).2.2.2.2.1]

/-- The function `run_face_recognition` never frees bytes of a frame. -/
theorem run_face_recognition_countP_free_frame_bytes (env : FaceEnv) (is_enrolling : Int)
    (image_matrix net_boxes : Nat) :
    (run_face_recognition env is_enrolling image_matrix net_boxes).calls.countP
      Call.is_free_frame_bytes = 0 :=
  List.countP_eq_zero.2 fun x hx => by
    simp [(run_face_recognition_calls_local env is_enrolling image_matrix net_boxes
      x hx).2.2.2.2.2]

/-! ## The loop -/

/-- After the release step neither the frame pointer nor the output pointer is kept. -/
theorem cycle_finish_null (env : CycleEnv) (s : EngineState) :
    (cycle env s).finish.fb = none ∧ (cycle env s).finish._jpg_buf = none := by
  simp only [cycle, release_buffer]
  split
  · simp
  · split <;> simp_all

/-- Every cycle of a loop entered with `_jpg_buf == NULL` and `res == ESP_OK` is a pass
through the loop body that again starts with `_jpg_buf == NULL` and `res == ESP_OK`. -/
theorem engine_loop_cycle_mem (envs : List CycleEnv) (s : EngineState)
    (hs : s._jpg_buf = none) (hr : s.res = ESP_OK)
    (c : CycleRecord) (hc : c ∈ (engine_loop envs s).cycles) :
    c.start._jpg_buf = none ∧ c.start.res = ESP_OK ∧ c = cycle c.env c.start := by
  induction envs generalizing s with
  | nil => simp [engine_loop] at hc
  | cons env envs ih =>
    simp only [engine_loop] at hc
    split_ifs at hc with hres
    · simp only [List.mem_singleton] at hc
      subst hc
      exact ⟨hs, hr, rfl⟩
    · simp only [List.mem_cons] at hc
      rcases hc with hc | hc
      · subst hc
        exact ⟨hs, hr, rfl⟩
      · exact ih _ (cycle_finish_null env s).2 (not_not.1 hres) hc

/-- A cycle that ends with `res != ESP_OK` is the last one, and `res` is returned. -/
theorem engine_loop_stops (envs : List CycleEnv) (s : EngineState)
    (pre : List CycleRecord) (c : CycleRecord) (post : List CycleRecord)
    (h : (engine_loop envs s).cycles = pre ++ c :: post) (hres : c.finish.res ≠ ESP_OK) :
    post = [] ∧ (engine_loop envs s).returned = some c.finish.res := by
  induction envs generalizing s pre with
  | nil => simp [engine_loop] at h
  | cons env envs ih =>
    simp only [engine_loop] at h ⊢
    split_ifs at h ⊢ with hfin
    · cases pre with
      | nil =>
        simp only [List.nil_append, List.cons.injEq] at h
        obtain ⟨h1, h2⟩ := h
        subst h1
        exact ⟨h2.symm, rfl⟩
      | cons p pre => simp at h
    · cases pre with
      | nil =>
        simp only [List.nil_append, List.cons.injEq] at h
        obtain ⟨h1, _⟩ := h
        subst h1
        exact absurd hres hfin
      | cons p pre =>
        simp only [List.cons_append, List.cons.injEq] at h
        exact ih _ pre h.2

/-- A cycle that got frame `fb` returns it exactly once, and frees no frame bytes. -/
theorem cycle_frame_returned (env : CycleEnv) (s : EngineState) (fb : camera_fb_t)
    (hfb : env.esp_camera_fb_get = some fb) (hs : s._jpg_buf = none) :
    (cycle env s).calls.filter Call.is_fb_return = [Call.esp_camera_fb_return fb]
    ∧ (cycle env s).calls.countP Call.is_free_frame_bytes = 0 := by
  obtain ⟨fbget, f2j, alloc, rgb, det, face, f2jpg⟩ := env
  simp only at hfb
  subst hfb
  by_cases hw : fb.width > 400 <;> by_cases hj : fb.format = .PIXFORMAT_JPEG <;>
    cases f2j <;> cases alloc <;> cases rgb <;> cases det <;> cases f2jpg <;>
    simp only [cycle, cycle_body, release_buffer, write_out, CycleRecord.calls, hw, hj, hs,
      List.filter_append, List.countP_append, run_face_recognition_filter_fb_return,
      run_face_recognition_countP_free_frame_bytes, if_true, if_false, not_true_eq_false,
      not_false_eq_true, ne_eq, Option.isSome_some, Option.isSome_none, Bool.not_true,
      Bool.not_false, or_true, or_false, true_or, false_or, Bool.false_eq_true] <;>
    simp [Call.is_fb_return, Call.is_free_frame_bytes, List.filter_cons, List.countP_cons]

/-- C3: in every cycle of `run_unlocker_engine` in which `esp_camera_fb_get` yields a
frame, the only call of `esp_camera_fb_return` is one call on that frame (never zero,
never two, whichever branch the cycle takes), and `free` is never applied to a pointer
into the frame's bytes. -/
theorem frame_returned_exactly_once (envs : List CycleEnv) (is_enrolling : Int)
    (mtmn_config : mtmn_config_t)
    (c : CycleRecord) (fb : camera_fb_t)
    (hc : c ∈ (run_unlocker_engine envs is_enrolling mtmn_config).cycles)
    (hfb : c.env.esp_camera_fb_get = some fb) :
    c.calls.filter Call.is_fb_return = [Call.esp_camera_fb_return fb]
    ∧ c.calls.countP Call.is_free_frame_bytes = 0 := by
  obtain ⟨hs, _, hcyc⟩ := engine_loop_cycle_mem envs _ rfl rfl c hc
  rw [hcyc]
  exact cycle_frame_returned c.env c.start fb hfb hs

/-- The release step leaves `res` and `is_enrolling` alone. -/
theorem release_buffer_keeps (s : EngineState) :
    (release_buffer s).1.res = s.res
    ∧ (release_buffer s).1.is_enrolling = s.is_enrolling := by
  simp only [release_buffer]
  split
  · simp
  · split <;> simp

/-- A cycle without a frame only gets as far as the failed acquisition. -/
theorem cycle_no_frame (env : CycleEnv) (s : EngineState)
    (hfb : env.esp_camera_fb_get = none) (hs : s._jpg_buf = none) :
    (cycle env s).calls = [Call.esp_camera_fb_get none, Call.print Msg.camera_capture_failed]
    ∧ (cycle env s).finish.res = ESP_FAIL := by
  obtain ⟨fbget, f2j, alloc, rgb, det, face, f2jpg⟩ := env
  simp only at hfb
  subst hfb
  simp [cycle, cycle_body, release_buffer, CycleRecord.calls, hs]

/-- A cycle with a conversion failure ends with `res == ESP_FAIL`. -/
theorem cycle_conversion_fails (env : CycleEnv) (s : EngineState) (fb : camera_fb_t)
    (hfb : env.esp_camera_fb_get = some fb) (hfail : conversion_fails env fb = true) :
    (cycle env s).finish.res = ESP_FAIL := by
  obtain ⟨fbget, f2j, alloc, rgb, det, face, f2jpg⟩ := env
  simp only at hfb
  subst hfb
  by_cases hw : fb.width > 400 <;> by_cases hj : fb.format = .PIXFORMAT_JPEG <;>
    cases f2j <;> cases alloc <;> cases rgb <;> cases det <;> cases f2jpg <;>
    (try simp [conversion_fails, encode_fails, hw, hj] at hfail) <;>
    (try simp [cycle, (release_buffer_keeps _).1, cycle_body, write_out, hw, hj]) <;>
    omega

/-- C8: a cycle of `run_unlocker_engine` in which `esp_camera_fb_get` returns no frame
makes no other call than that acquisition and the line it logs (no conversion, detection,
recognition, frame return or free), is the last cycle (no further acquisition), and
the engine returns `ESP_FAIL`. -/
theorem acquisition_failure_is_fatal (envs : List CycleEnv) (is_enrolling : Int)
    (mtmn_config : mtmn_config_t)
    (pre : List CycleRecord) (c : CycleRecord) (post : List CycleRecord)
    (hrun : (run_unlocker_engine envs is_enrolling mtmn_config).cycles = pre ++ c :: post)
    (hfb : c.env.esp_camera_fb_get = none) :
    c.calls = [Call.esp_camera_fb_get none, Call.print Msg.camera_capture_failed]
    ∧ post = []
    ∧ (run_unlocker_engine envs is_enrolling mtmn_config).returned = some ESP_FAIL := by
  have hc : c ∈ (run_unlocker_engine envs is_enrolling mtmn_config).cycles := by
    rw [hrun]
    simp
  obtain ⟨hs, _, hcyc⟩ := engine_loop_cycle_mem envs _ rfl rfl c hc
  have hk := cycle_no_frame c.env c.start hfb hs
  rw [← hcyc] at hk
  have hstop := engine_loop_stops envs _ pre c post hrun (by rw [hk.2]; decide)
  rw [hk.2] at hstop
  exact ⟨hk.1, hstop.1, hstop.2⟩

/-- C8, on a run whose second cycle gets no frame: the third set of outcomes is
never consulted. -/
theorem acquisition_failure_is_fatal_witness :
    (run_unlocker_engine [env_no_face frame_qvga_jpeg, env_no_frame,
        env_no_face frame_qvga_jpeg] 0 mtmn_config_ready).cycles
      = [cycle (env_no_face frame_qvga_jpeg) (init_state 0 mtmn_config_ready)]
        ++ cycle env_no_frame (cycle (env_no_face frame_qvga_jpeg) (init_state 0
            mtmn_config_ready)).finish :: []
    ∧ (cycle env_no_frame (cycle (env_no_face frame_qvga_jpeg) (init_state 0
        mtmn_config_ready)).finish).calls
      = [Call.esp_camera_fb_get none, Call.print Msg.camera_capture_failed]
    ∧ (run_unlocker_engine [env_no_face frame_qvga_jpeg, env_no_frame,
        env_no_face frame_qvga_jpeg] 0 mtmn_config_ready).returned = some ESP_FAIL :=
  have h : (run_unlocker_engine [env_no_face frame_qvga_jpeg, env_no_frame,
        env_no_face frame_qvga_jpeg] 0 mtmn_config_ready).cycles
      = [cycle (env_no_face frame_qvga_jpeg) (init_state 0 mtmn_config_ready)]
        ++ cycle env_no_frame (cycle (env_no_face frame_qvga_jpeg) (init_state 0
            mtmn_config_ready)).finish
          :: [] := by decide
  ⟨h, (acquisition_failure_is_fatal _ 0 mtmn_config_ready _ _ _ h rfl).1,
    (acquisition_failure_is_fatal _ 0 mtmn_config_ready _ _ _ h rfl).2.2⟩

/-- The function `run_face_recognition` frees its own buffer only: a matrix that is not the aligned
face is not freed by it. -/
theorem run_face_recognition_count_matrix_free (env : FaceEnv) (is_enrolling : Int)
    (image_matrix net_boxes m : Nat) (hm : env.aligned_face ≠ some m) :
    (run_face_recognition env is_enrolling image_matrix net_boxes).calls.count
      (Call.dl_matrix3du_free m) = 0 := by
  obtain ⟨aligned, align, enroll, tail, recog⟩ := env
  cases aligned with
  | none => simp [run_face_recognition, List.count_cons]
  | some a =>
    have hne : a ≠ m := fun h => hm (by simp [h])
    simp only [run_face_recognition]
    split_ifs <;> simp [List.count_cons, hne]

/-- A cycle that got a frame no wider than 400 and allocated image matrix `m` frees `m`
exactly once. -/
theorem cycle_matrix_freed (env : CycleEnv) (s : EngineState) (fb : camera_fb_t) (m : Nat)
    (hfb : env.esp_camera_fb_get = some fb) (hw : fb.width ≤ 400)
    (hm : env.dl_matrix3du_alloc = some m) (hne : env.face.aligned_face ≠ some m)
    (hs : s._jpg_buf = none) :
    (cycle env s).calls.count (Call.dl_matrix3du_free m) = 1 := by
  obtain ⟨fbget, f2j, alloc, rgb, det, face, f2jpg⟩ := env
  simp only at hfb hm hne
  subst hfb hm
  have hw2 : ¬ fb.width > 400 := by omega
  have hc := fun ie im nb => run_face_recognition_count_matrix_free face ie im nb m hne
  by_cases hj : fb.format = .PIXFORMAT_JPEG <;>
    cases rgb <;> cases det <;> cases f2jpg <;>
    simp only [cycle, cycle_body, release_buffer, write_out, CycleRecord.calls, hw2, hj, hs,
      List.count_append, hc, if_true, if_false, not_true_eq_false,
      not_false_eq_true, ne_eq, Option.isSome_some, Option.isSome_none, Bool.not_true,
      Bool.not_false, or_true, or_false, true_or, false_or, Bool.false_eq_true] <;>
    simp [List.count_cons]

/-- C1 (amended): a conversion failure is fatal after cleanup.  In a cycle of
`run_unlocker_engine` that got a frame but in which the image matrix allocation,
`fmt2rgb888` or the JPEG encoder fails, the frame is returned exactly once, an allocated
image matrix is freed exactly once, neither `fb` nor `_jpg_buf` is kept, and the engine
then returns `ESP_FAIL` to its caller without another cycle. -/
theorem conversion_failure_is_fatal (envs : List CycleEnv) (is_enrolling : Int)
    (mtmn_config : mtmn_config_t)
    (pre : List CycleRecord) (c : CycleRecord) (post : List CycleRecord) (fb : camera_fb_t)
    (hrun : (run_unlocker_engine envs is_enrolling mtmn_config).cycles = pre ++ c :: post)
    (hfb : c.env.esp_camera_fb_get = some fb)
    (hfail : conversion_fails c.env fb = true) :
    c.calls.filter Call.is_fb_return = [Call.esp_camera_fb_return fb]
    ∧ (∀ m, fb.width ≤ 400 → c.env.dl_matrix3du_alloc = some m →
        c.env.face.aligned_face ≠ some m → c.calls.count (Call.dl_matrix3du_free m) = 1)
    ∧ c.finish.fb = none ∧ c.finish._jpg_buf = none
    ∧ post = []
    ∧ (run_unlocker_engine envs is_enrolling mtmn_config).returned = some ESP_FAIL := by
  have hc : c ∈ (run_unlocker_engine envs is_enrolling mtmn_config).cycles := by
    rw [hrun]
    simp
  obtain ⟨hs, _, hcyc⟩ := engine_loop_cycle_mem envs _ rfl rfl c hc
  have hres := cycle_conversion_fails c.env c.start fb hfb hfail
  have hret := (cycle_frame_returned c.env c.start fb hfb hs).1
  have hnull := cycle_finish_null c.env c.start
  have hfree := fun m h1 h2 h3 => cycle_matrix_freed c.env c.start fb m hfb h1 h2 h3 hs
  rw [← hcyc] at hres hret hnull hfree
  have hstop := engine_loop_stops envs _ pre c post hrun (by rw [hres]; decide)
  rw [hres] at hstop
  exact ⟨hret, hfree, hnull.1, hnull.2, hstop.1, hstop.2⟩

/-- C1 (amended), on a run whose first cycle cannot allocate the image matrix. -/
theorem conversion_failure_is_fatal_witness :
    (cycle (env_alloc_fails frame_qvga_rgb565) (init_state 0 mtmn_config_ready)).calls.filter
        Call.is_fb_return
      = [Call.esp_camera_fb_return frame_qvga_rgb565]
    ∧ (run_unlocker_engine [env_alloc_fails frame_qvga_rgb565, env_no_face frame_qvga_jpeg]
        0 mtmn_config_ready).returned = some ESP_FAIL :=
  have h : (run_unlocker_engine [env_alloc_fails frame_qvga_rgb565,
        env_no_face frame_qvga_jpeg] 0 mtmn_config_ready).cycles
      = [] ++ cycle (env_alloc_fails frame_qvga_rgb565) (init_state 0 mtmn_config_ready) :: [] :=
          by decide
  ⟨(conversion_failure_is_fatal _ 0 mtmn_config_ready _ _ _ frame_qvga_rgb565 h rfl (by decide)).1,
    (conversion_failure_is_fatal _ 0 mtmn_config_ready _ _ _ frame_qvga_rgb565 h rfl (by
        decide)).2.2.2.2.2⟩

/-- C1 as stated fails: every cycle below gets its frame, the first one cannot allocate
the image matrix, and the engine returns `ESP_FAIL` after a single acquisition instead of
going on to the second cycle. -/
theorem conversion_failure_recoverable_counterexample :
    (∀ env ∈ [env_alloc_fails frame_qvga_rgb565, env_no_face frame_qvga_jpeg],
        env.esp_camera_fb_get.isSome = true)
    ∧ conversion_fails (env_alloc_fails frame_qvga_rgb565) frame_qvga_rgb565 = true
    ∧ (run_unlocker_engine [env_alloc_fails frame_qvga_rgb565, env_no_face frame_qvga_jpeg]
        0 mtmn_config_ready).returned = some ESP_FAIL
    ∧ (run_unlocker_engine [env_alloc_fails frame_qvga_rgb565, env_no_face frame_qvga_jpeg]
        0 mtmn_config_ready).calls.countP Call.is_fb_get = 1 := by
  decide

/-- What the release step of a cycle does, by the state the loop body left. -/
theorem cycle_release_step (env : CycleEnv) (s : EngineState) (hs : s._jpg_buf = none) :
    ((cycle env s).release.countP Call.is_fb_return
        + (cycle env s).release.countP Call.is_free_bytes ≤ 1)
    ∧ (∀ fb, (cycle env s).at_release.fb = some fb →
        (cycle env s).release = [Call.esp_camera_fb_return fb]
        ∧ env.esp_camera_fb_get = some fb)
    ∧ (∀ fb, (cycle env s).at_release.fb = none → env.esp_camera_fb_get = some fb →
        encode_fails env fb = false →
        ∃ addr, (cycle env s).release = [Call.free (.bytes (.heap addr))]
          ∧ (cycle env s).at_release._jpg_buf = some (.heap addr))
    ∧ (∀ fb, env.esp_camera_fb_get = some fb → encode_fails env fb = false →
        (cycle env s).release.countP Call.is_fb_return
          + (cycle env s).release.countP Call.is_free_bytes = 1)
    ∧ ((env.esp_camera_fb_get = none
          ∨ ∃ fb, env.esp_camera_fb_get = some fb ∧ encode_fails env fb = true) →
        (cycle env s).release = []) := by
  obtain ⟨fbget, f2j, alloc, rgb, det, face, f2jpg⟩ := env
  cases fbget with
  | none =>
    simp [cycle, cycle_body, release_buffer, hs]
  | some fb =>
    by_cases hw : fb.width > 400 <;> by_cases hj : fb.format = .PIXFORMAT_JPEG <;>
      cases f2j <;> cases alloc <;> cases rgb <;> cases det <;> cases f2jpg <;>
      simp [cycle, cycle_body, release_buffer, write_out, encode_fails, hw, hj, hs,
        Call.is_fb_return, Call.is_free_bytes, List.countP_cons] <;>
      omega

/-- C2 (amended): at the release step of a cycle of `run_unlocker_engine` the frame and
the output buffer are never both released.  If the cycle still holds the frame, the frame
is returned to the camera and nothing is freed.  If it does not, and it got a frame and no
JPEG encoder failed, the output buffer, a heap buffer written by the encoder, is freed.  So
exactly one of the two is released in every cycle that got a frame and met no encoder
failure; in a cycle without a frame, or with a failed encoder, the release step releases
nothing. -/
theorem release_step_owner (envs : List CycleEnv) (is_enrolling : Int)
    (mtmn_config : mtmn_config_t) (c : CycleRecord)
    (hc : c ∈ (run_unlocker_engine envs is_enrolling mtmn_config).cycles) :
    (c.release.countP Call.is_fb_return + c.release.countP Call.is_free_bytes ≤ 1)
    ∧ (∀ fb, c.at_release.fb = some fb →
        c.release = [Call.esp_camera_fb_return fb] ∧ c.env.esp_camera_fb_get = some fb)
    ∧ (∀ fb, c.at_release.fb = none → c.env.esp_camera_fb_get = some fb →
        encode_fails c.env fb = false →
        ∃ addr, c.release = [Call.free (.bytes (.heap addr))]
          ∧ c.at_release._jpg_buf = some (.heap addr))
    ∧ (∀ fb, c.env.esp_camera_fb_get = some fb → encode_fails c.env fb = false →
        c.release.countP Call.is_fb_return + c.release.countP Call.is_free_bytes = 1)
    ∧ ((c.env.esp_camera_fb_get = none
          ∨ ∃ fb, c.env.esp_camera_fb_get = some fb ∧ encode_fails c.env fb = true) →
        c.release = []) := by
  obtain ⟨hs, _, hcyc⟩ := engine_loop_cycle_mem envs _ rfl rfl c hc
  have h := cycle_release_step c.env c.start hs
  rw [← hcyc] at h
  exact h

/-- C2 (amended), on a cycle that re-encodes a frame in which a face was found: the
release step frees the encoder's buffer and does not return the frame again. -/
theorem release_step_owner_witness :
    cycle (env_face frame_qvga_rgb565) (init_state 0 mtmn_config_ready)
      ∈ (run_unlocker_engine [env_face frame_qvga_rgb565] 0 mtmn_config_ready).cycles
    ∧ (cycle (env_face frame_qvga_rgb565) (init_state 0 mtmn_config_ready)).release.countP
        Call.is_fb_return
        + (cycle (env_face frame_qvga_rgb565) (init_state 0 mtmn_config_ready)).release.countP
            Call.is_free_bytes = 1
    ∧ (cycle (env_face frame_qvga_rgb565) (init_state 0 mtmn_config_ready)).release
        = [Call.free (.bytes (.heap 9100))] :=
  have h : cycle (env_face frame_qvga_rgb565) (init_state 0 mtmn_config_ready)
      ∈ (run_unlocker_engine [env_face frame_qvga_rgb565] 0 mtmn_config_ready).cycles := by decide
  ⟨h, (release_step_owner _ 0 mtmn_config_ready _ h).2.2.2.1 frame_qvga_rgb565 rfl (by decide), by
      decide⟩

/-- C2 as stated fails: in a cycle without a frame neither a frame nor a buffer is
released, at the release step or anywhere else in the cycle. -/
theorem release_step_owner_counterexample :
    (run_unlocker_engine [env_no_frame] 0 mtmn_config_ready).cycles = [cycle env_no_frame
        (init_state 0 mtmn_config_ready)]
    ∧ (cycle env_no_frame (init_state 0 mtmn_config_ready)).release = []
    ∧ (cycle env_no_frame (init_state 0 mtmn_config_ready)).calls.countP Call.is_fb_return = 0
    ∧ (cycle env_no_frame (init_state 0 mtmn_config_ready)).calls.countP Call.is_free_bytes = 0 :=
        by
  decide

/-- The function `run_face_recognition` makes no `face_detect` call. -/
theorem run_face_recognition_not_mem_face_detect (env : FaceEnv) (is_enrolling : Int)
    (image_matrix net_boxes m : Nat) (config : mtmn_config_t) (ret : Option Nat) :
    Call.face_detect m config ret
      ∉ (run_face_recognition env is_enrolling image_matrix net_boxes).calls := by
  intro h
  have hk := (run_face_recognition_calls_local env is_enrolling image_matrix net_boxes
    _ h).2.2.1
  simp [Call.is_face_detect] at hk

/-- Which cycles call the detector. -/
theorem cycle_face_detect (env : CycleEnv) (s : EngineState) (fb : camera_fb_t)
    (hfb : env.esp_camera_fb_get = some fb) :
    (fb.width > 400 → (cycle env s).calls.countP Call.is_face_detect = 0)
    ∧ (fb.width ≤ 400 → ∀ m, env.dl_matrix3du_alloc = some m → env.fmt2rgb888 = true →
        (cycle env s).calls.filter Call.is_face_detect
          = [Call.face_detect m s.mtmn_config env.face_detect])
    ∧ (fb.width ≤ 400 → (env.dl_matrix3du_alloc = none ∨ env.fmt2rgb888 = false) →
        (cycle env s).calls.countP Call.is_face_detect = 0) := by
  have hrel : ∀ t : EngineState, (release_buffer t).2.countP Call.is_face_detect = 0
      ∧ (release_buffer t).2.filter Call.is_face_detect = [] := by
    intro t
    simp only [release_buffer]
    split
    · simp [Call.is_face_detect, List.countP_cons, List.filter_cons]
    · split <;> simp [Call.is_face_detect, List.countP_cons, List.filter_cons]
  have hface : ∀ (e : FaceEnv) (ie : Int) (im nb : Nat),
      (run_face_recognition e ie im nb).calls.filter Call.is_face_detect = [] := by
    intro e ie im nb
    exact List.filter_eq_nil_iff.2 fun x hx => by
      simp [(run_face_recognition_calls_local e ie im nb x hx).2.2.1]
  obtain ⟨fbget, f2j, alloc, rgb, det, face, f2jpg⟩ := env
  simp only at hfb
  subst hfb
  simp only [cycle, CycleRecord.calls, List.countP_append, List.filter_append, hrel]
  by_cases hw : fb.width > 400 <;> by_cases hj : fb.format = .PIXFORMAT_JPEG <;>
    cases f2j <;> cases alloc <;> cases rgb <;> cases det <;> cases f2jpg <;>
    simp only [cycle_body, write_out, hw, hj,
      List.filter_append, List.countP_append, hface,
      run_face_recognition_countP_face_detect, if_true, if_false, not_true_eq_false,
      not_false_eq_true, ne_eq, Option.isSome_some, Option.isSome_none, Bool.not_true,
      Bool.not_false, or_true, or_false, true_or, false_or, Bool.false_eq_true] <;>
    simp [Call.is_face_detect, List.filter_cons, List.countP_cons] <;>
    omega

/-- C5 (amended): in a cycle of `run_unlocker_engine` on a frame wider than 400
`face_detect` is never called; on a frame of width at most 400 (400 included) it is called
exactly once, on the image matrix, provided the matrix allocation and the RGB conversion
`fmt2rgb888` both succeeded; when either of them fails it is not called. -/
theorem detector_routing (envs : List CycleEnv) (is_enrolling : Int)
    (mtmn_config : mtmn_config_t) (c : CycleRecord)
    (fb : camera_fb_t)
    (hc : c ∈ (run_unlocker_engine envs is_enrolling mtmn_config).cycles)
    (hfb : c.env.esp_camera_fb_get = some fb) :
    (fb.width > 400 → c.calls.countP Call.is_face_detect = 0)
    ∧ (fb.width ≤ 400 → ∀ m, c.env.dl_matrix3du_alloc = some m → c.env.fmt2rgb888 = true →
        c.calls.filter Call.is_face_detect
          = [Call.face_detect m c.start.mtmn_config c.env.face_detect])
    ∧ (fb.width ≤ 400 → (c.env.dl_matrix3du_alloc = none ∨ c.env.fmt2rgb888 = false) →
        c.calls.countP Call.is_face_detect = 0) := by
  obtain ⟨_, _, hcyc⟩ := engine_loop_cycle_mem envs _ rfl rfl c hc
  have h := cycle_face_detect c.env c.start fb hfb
  rw [← hcyc] at h
  exact h

/-- C5 (amended), on a frame of width exactly 400 and on a frame of width 800. -/
theorem detector_routing_witness :
    (cycle (env_no_face frame_cif_jpeg) (init_state 0 mtmn_config_ready)).calls.filter
        Call.is_face_detect
      = [Call.face_detect 500 mtmn_config_ready none]
    ∧ (cycle (env_face frame_svga_jpeg) (init_state 0 mtmn_config_ready)).calls.countP
        Call.is_face_detect = 0 :=
  ⟨(detector_routing [env_no_face frame_cif_jpeg] 0 mtmn_config_ready _ frame_cif_jpeg
      (by decide) rfl).2.1 (by decide) 500 rfl rfl,
    (detector_routing [env_face frame_svga_jpeg] 0 mtmn_config_ready _ frame_svga_jpeg
      (by decide) rfl).1 (by decide)⟩

/-- C5 as stated fails: the frame below is 320 wide and its image matrix is allocated,
but `fmt2rgb888` fails and the detector is never called. -/
theorem detector_routing_counterexample :
    (env_rgb_fails frame_qvga_jpeg).esp_camera_fb_get = some frame_qvga_jpeg
    ∧ frame_qvga_jpeg.width ≤ 400
    ∧ (env_rgb_fails frame_qvga_jpeg).dl_matrix3du_alloc = some 500
    ∧ (run_unlocker_engine [env_rgb_fails frame_qvga_jpeg] 0 mtmn_config_ready).cycles
        = [cycle (env_rgb_fails frame_qvga_jpeg) (init_state 0 mtmn_config_ready)]
    ∧ (cycle (env_rgb_fails frame_qvga_jpeg) (init_state 0 mtmn_config_ready)).calls.countP
        Call.is_face_detect = 0 := by
  decide

/-- A cycle on a JPEG frame in which the detector reported no face passes the frame's
bytes through. -/
theorem cycle_pass_through (env : CycleEnv) (s : EngineState) (fb : camera_fb_t) (m : Nat)
    (config : mtmn_config_t)
    (hfb : env.esp_camera_fb_get = some fb) (hj : fb.format = .PIXFORMAT_JPEG)
    (hs : s._jpg_buf = none)
    (hdet : Call.face_detect m config none ∈ (cycle env s).calls) :
    (cycle env s).at_release._jpg_buf = some (.frame_buf fb.buf)
    ∧ (cycle env s).at_release._jpg_buf_len = fb.len
    ∧ (cycle env s).calls.countP Call.is_jpg_encode = 0
    ∧ (cycle env s).calls.countP Call.is_free_bytes = 0
    ∧ (cycle env s).release = [Call.esp_camera_fb_return fb] := by
  obtain ⟨fbget, f2j, alloc, rgb, det, face, f2jpg⟩ := env
  simp only at hfb
  subst hfb
  by_cases hw : fb.width > 400 <;>
    cases f2j <;> cases alloc <;> cases rgb <;> cases det <;> cases f2jpg <;>
    simp [cycle, cycle_body, release_buffer, write_out, CycleRecord.calls, hw, hj, hs,
      run_face_recognition_not_mem_face_detect, Call.is_jpg_encode, Call.is_free_bytes,
      List.countP_cons] at hdet ⊢

/-- C6: in a cycle of `run_unlocker_engine` on a JPEG frame for which the detector
reports no faces, the output pointer and length at the release step are `fb->buf` and
`fb->len`, no JPEG encoder (`fmt2jpg`, `frame2jpg`) is called, and the buffer is not freed:
the release step only returns the frame. -/
theorem jpeg_pass_through (envs : List CycleEnv) (is_enrolling : Int)
    (mtmn_config : mtmn_config_t) (c : CycleRecord)
    (fb : camera_fb_t) (m : Nat) (config : mtmn_config_t)
    (hc : c ∈ (run_unlocker_engine envs is_enrolling mtmn_config).cycles)
    (hfb : c.env.esp_camera_fb_get = some fb)
    (hj : fb.format = .PIXFORMAT_JPEG)
    (hdet : Call.face_detect m config none ∈ c.calls) :
    c.at_release._jpg_buf = some (.frame_buf fb.buf)
    ∧ c.at_release._jpg_buf_len = fb.len
    ∧ c.calls.countP Call.is_jpg_encode = 0
    ∧ c.calls.countP Call.is_free_bytes = 0
    ∧ c.release = [Call.esp_camera_fb_return fb] := by
  obtain ⟨hs, _, hcyc⟩ := engine_loop_cycle_mem envs _ rfl rfl c hc
  rw [hcyc] at hdet
  have h := cycle_pass_through c.env c.start fb m config hfb hj hs hdet
  rw [← hcyc] at h
  exact h

/-- C6, on a 320x240 JPEG frame without a face, in the second cycle of a run. -/
theorem jpeg_pass_through_witness :
    (cycle (env_no_face frame_qvga_jpeg)
        (cycle (env_face frame_qvga_rgb565) (init_state 0
            mtmn_config_ready)).finish).at_release._jpg_buf
      = some (.frame_buf 4096)
    ∧ (cycle (env_no_face frame_qvga_jpeg)
        (cycle (env_face frame_qvga_rgb565) (init_state 0
            mtmn_config_ready)).finish).at_release._jpg_buf_len
      = 9000
    ∧ (cycle (env_no_face frame_qvga_jpeg)
        (cycle (env_face frame_qvga_rgb565) (init_state 0 mtmn_config_ready)).finish).calls.countP
          Call.is_jpg_encode = 0 :=
  have h := jpeg_pass_through [env_face frame_qvga_rgb565, env_no_face frame_qvga_jpeg] 0
      mtmn_config_ready
    (cycle (env_no_face frame_qvga_jpeg)
      (cycle (env_face frame_qvga_rgb565) (init_state 0 mtmn_config_ready)).finish)
    frame_qvga_jpeg 500 mtmn_config_ready (by decide) rfl rfl (by decide)
  ⟨h.1, h.2.1, h.2.2.1⟩

/-- A call of `run_face_recognition` whose alignment fails: all it does. -/
theorem run_face_recognition_not_aligned (env : FaceEnv) (is_enrolling : Int)
    (image_matrix net_boxes aligned_face : Nat)
    (halloc : env.aligned_face = some aligned_face) (halign : env.align_face ≠ ESP_OK) :
    (run_face_recognition env is_enrolling image_matrix net_boxes).calls
      = [Call.dl_matrix3du_alloc 1 FACE_WIDTH FACE_HEIGHT 3 (some aligned_face),
         Call.align_face net_boxes image_matrix aligned_face env.align_face,
         Call.print Msg.face_not_aligned, Call.dl_matrix3du_free aligned_face]
    ∧ (run_face_recognition env is_enrolling image_matrix net_boxes).is_enrolling
        = is_enrolling
    ∧ (run_face_recognition env is_enrolling image_matrix net_boxes).matched_id = 0 := by
  obtain ⟨aligned, align, enroll, tail, recog⟩ := env
  simp only at halloc halign
  subst halloc
  simp [run_face_recognition, halign]

/-- A cycle in which a face is found but not aligned: no sample, no lookup, the flag as
it was, and `res` decided by the encoder alone. -/
theorem cycle_not_aligned (env : CycleEnv) (s : EngineState) (fb : camera_fb_t)
    (m b a : Nat)
    (hfb : env.esp_camera_fb_get = some fb) (hw : fb.width ≤ 400)
    (hm : env.dl_matrix3du_alloc = some m) (hrgb : env.fmt2rgb888 = true)
    (hdet : env.face_detect = some b)
    (halloc : env.face.aligned_face = some a) (halign : env.face.align_face ≠ ESP_OK)
    (hs : s._jpg_buf = none) :
    (cycle env s).calls.countP Call.is_enroll_face = 0
    ∧ (cycle env s).calls.countP Call.is_recognize_face = 0
    ∧ (cycle env s).finish.is_enrolling = s.is_enrolling
    ∧ (cycle env s).finish.res = if env.fmt2jpg.isSome then s.res else ESP_FAIL := by
  obtain ⟨fbget, f2j, alloc, rgb, det, face, f2jpg⟩ := env
  simp only at hfb hm hrgb hdet halloc halign
  subst hfb hm hrgb hdet
  have hw2 : ¬ fb.width > 400 := by omega
  have hk := run_face_recognition_not_aligned face s.is_enrolling m b a halloc halign
  cases f2jpg <;>
    simp [cycle, cycle_body, release_buffer, write_out, CycleRecord.calls, hw2, hs,
      hk.1, hk.2.1, Call.is_enroll_face, Call.is_recognize_face, List.countP_cons]

/-- C10: a call of `run_face_recognition` in which `align_face` does not return `ESP_OK`
calls neither `enroll_face` nor `recognize_face`, returns 0 and leaves `is_enrolling` as it
was; and in the cycle of `run_unlocker_engine` around it no sample is taken, no lookup is
made, `is_enrolling` is unchanged, and `res` is `ESP_FAIL` only if `fmt2jpg` fails: with a
successful `fmt2jpg` the cycle ends with `res == ESP_OK`. -/
theorem alignment_failure_absorbed :
    (∀ (env : FaceEnv) (is_enrolling : Int) (image_matrix net_boxes aligned_face : Nat),
      env.aligned_face = some aligned_face → env.align_face ≠ ESP_OK →
      (run_face_recognition env is_enrolling image_matrix net_boxes).calls.countP
          Call.is_enroll_face = 0
      ∧ (run_face_recognition env is_enrolling image_matrix net_boxes).calls.countP
          Call.is_recognize_face = 0
      ∧ (run_face_recognition env is_enrolling image_matrix net_boxes).is_enrolling
          = is_enrolling
      ∧ (run_face_recognition env is_enrolling image_matrix net_boxes).matched_id = 0)
    ∧ (∀ (envs : List CycleEnv) (is_enrolling : Int)
    (mtmn_config : mtmn_config_t) (c : CycleRecord) (fb : camera_fb_t)
        (m b a : Nat),
      c ∈ (run_unlocker_engine envs is_enrolling mtmn_config).cycles →
      c.env.esp_camera_fb_get = some fb → fb.width ≤ 400 →
      c.env.dl_matrix3du_alloc = some m → c.env.fmt2rgb888 = true →
      c.env.face_detect = some b →
      c.env.face.aligned_face = some a → c.env.face.align_face ≠ ESP_OK →
      c.calls.countP Call.is_enroll_face = 0
      ∧ c.calls.countP Call.is_recognize_face = 0
      ∧ c.finish.is_enrolling = c.start.is_enrolling
      ∧ c.finish.res = if c.env.fmt2jpg.isSome then ESP_OK else ESP_FAIL) := by
  refine ⟨?_, ?_⟩
  · intro env is_enrolling image_matrix net_boxes aligned_face halloc halign
    have hk := run_face_recognition_not_aligned env is_enrolling image_matrix net_boxes
      aligned_face halloc halign
    rw [hk.1]
    exact ⟨by simp [Call.is_enroll_face, List.countP_cons],
      by simp [Call.is_recognize_face, List.countP_cons], hk.2.1, hk.2.2⟩
  · intro envs is_enrolling mtmn_config c fb m b a hc hfb hw hm hrgb hdet halloc halign
    obtain ⟨hs, hr, hcyc⟩ := engine_loop_cycle_mem envs _ rfl rfl c hc
    have h := cycle_not_aligned c.env c.start fb m b a hfb hw hm hrgb hdet halloc halign hs
    rw [← hcyc, hr] at h
    exact h

/-- C10, on a cycle in which a face is found in a 320x240 frame and cannot be aligned
while an enrollment is going on: the cycle ends with `res == ESP_OK`, the flag still 1. -/
theorem alignment_failure_absorbed_witness :
    (run_face_recognition face_not_aligned 1 500 600).calls.countP Call.is_enroll_face = 0
    ∧ (cycle (env_not_aligned frame_qvga_rgb565) (init_state 1
        mtmn_config_ready)).finish.is_enrolling = 1
    ∧ (cycle (env_not_aligned frame_qvga_rgb565) (init_state 1 mtmn_config_ready)).finish.res =
        ESP_OK :=
  have h := alignment_failure_absorbed.2 [env_not_aligned frame_qvga_rgb565] 1 mtmn_config_ready
    (cycle (env_not_aligned frame_qvga_rgb565) (init_state 1 mtmn_config_ready)) frame_qvga_rgb565
        500 600 700
    (by decide) rfl (by decide) rfl rfl rfl rfl (by decide)
  ⟨(alignment_failure_absorbed.1 face_not_aligned 1 500 600 700 rfl (by decide)).1,
    h.2.2.1, h.2.2.2⟩

/-- C3, on a cycle that re-encodes a frame with a face (the frame is returned before the
release step) and on a cycle that passes a JPEG frame through (returned at the release
step). -/
theorem frame_returned_exactly_once_witness :
    (cycle (env_face frame_qvga_rgb565) (init_state 0 mtmn_config_ready)).calls.filter
        Call.is_fb_return
      = [Call.esp_camera_fb_return frame_qvga_rgb565]
    ∧ (cycle (env_no_face frame_qvga_jpeg)
        (cycle (env_face frame_qvga_rgb565) (init_state 0 mtmn_config_ready)).finish).calls.filter
          Call.is_fb_return = [Call.esp_camera_fb_return frame_qvga_jpeg]
    ∧ (cycle (env_no_face frame_qvga_jpeg)
        (cycle (env_face frame_qvga_rgb565) (init_state 0 mtmn_config_ready)).finish).calls.countP
          Call.is_free_frame_bytes = 0 :=
  have h := frame_returned_exactly_once
    [env_face frame_qvga_rgb565, env_no_face frame_qvga_jpeg] 0 mtmn_config_ready
    (cycle (env_no_face frame_qvga_jpeg)
      (cycle (env_face frame_qvga_rgb565) (init_state 0 mtmn_config_ready)).finish)
    frame_qvga_jpeg (by decide) rfl
  ⟨(frame_returned_exactly_once [env_face frame_qvga_rgb565] 0 mtmn_config_ready
      (cycle (env_face frame_qvga_rgb565) (init_state 0 mtmn_config_ready)) frame_qvga_rgb565
      (by decide) rfl).1, h.1, h.2⟩

/-- C4, on a call with the flag set and a call with the flag clear. -/
theorem run_face_recognition_exclusive_witness :
    (run_face_recognition face_ok 1 500 600).calls.countP Call.is_recognize_face = 0
    ∧ (run_face_recognition face_ok 0 500 600).calls.countP Call.is_enroll_face = 0 :=
  ⟨(run_face_recognition_exclusive face_ok 1 500 600).2.1 rfl,
    (run_face_recognition_exclusive face_ok 0 500 600).2.2 (by decide)⟩

/-- C7, on five calls with the same outcomes of allocation and alignment. -/
theorem enrollment_protocol_witness :
    (enrollment_calls (List.replicate 5 face_ok) 1 ENROLL_CONFIRM_TIMES 500 600).map
        (fun r => (r.calls.filterMap Call.enroll_face_ret, r.is_enrolling))
      = [([4], 1), ([3], 1), ([2], 1), ([1], 1), ([0], 0)] :=
  enrollment_protocol.1 (List.replicate 5 face_ok) 500 600 rfl (by decide)

/-- The cycle in which a face is found, call by call: conversion, detection, the calls
of `run_face_recognition`, the four frees of the box array, the re-encoding, the return
of the frame and the free of the image matrix; then the release step. -/
theorem cycle_face_path (env : CycleEnv) (s : EngineState) (fb : camera_fb_t) (m b : Nat)
    (hfb : env.esp_camera_fb_get = some fb) (hw : fb.width ≤ 400)
    (hm : env.dl_matrix3du_alloc = some m) (hrgb : env.fmt2rgb888 = true)
    (hdet : env.face_detect = some b) (hs : s._jpg_buf = none) :
    (cycle env s).body
      = [Call.esp_camera_fb_get (some fb),
          Call.dl_matrix3du_alloc 1 fb.width fb.height 3 (some m),
          Call.fmt2rgb888 fb.buf fb.len fb.format m true,
          Call.face_detect m s.mtmn_config (some b)]
        ++ (run_face_recognition env.face s.is_enrolling m b).calls
        ++ [Call.free (.score b), Call.free (.box b), Call.free (.landmark b),
            Call.free (.boxes b),
            Call.fmt2jpg m (fb.width * fb.height * 3 % 2 ^ 32) (fb.width % 2 ^ 16)
              (fb.height % 2 ^ 16) .PIXFORMAT_RGB888 90 env.fmt2jpg]
        ++ (if env.fmt2jpg.isSome then [] else [Call.print Msg.fmt2jpg_failed])
        ++ [Call.esp_camera_fb_return fb, Call.dl_matrix3du_free m]
    ∧ (cycle env s).release
        = (match env.fmt2jpg with
           | some p => [Call.free (.bytes (.heap p.1))]
           | none => [])
    ∧ (cycle env s).finish.is_enrolling
        = (run_face_recognition env.face s.is_enrolling m b).is_enrolling
    ∧ (cycle env s).finish.res = (if env.fmt2jpg.isSome then s.res else ESP_FAIL)
    ∧ (cycle env s).at_release.fb = none
    ∧ (cycle env s).at_release._jpg_buf = env.fmt2jpg.map (fun p => BytePtr.heap p.1) := by
  obtain ⟨fbget, f2j, alloc, rgb, det, face, f2jpg⟩ := env
  simp only at hfb hm hrgb hdet
  subst hfb hm hrgb hdet
  have hw2 : ¬ fb.width > 400 := by omega
  cases f2jpg <;>
    simp [cycle, cycle_body, release_buffer, write_out, hw2, hs]

/-- A cycle that does not reach `run_face_recognition` leaves `is_enrolling` alone and
calls neither `enroll_face` nor `recognize_face`, and frees no box array. -/
theorem cycle_without_face (env : CycleEnv) (s : EngineState) (hs : s._jpg_buf = none)
    (h : ∀ fb m b, env.esp_camera_fb_get = some fb → fb.width ≤ 400 →
      env.dl_matrix3du_alloc = some m → env.fmt2rgb888 = true → env.face_detect ≠ some b) :
    (cycle env s).finish.is_enrolling = s.is_enrolling
    ∧ (cycle env s).calls.filterMap Call.enroll_face_ret = []
    ∧ (cycle env s).calls.countP Call.is_enroll_face = 0
    ∧ (cycle env s).calls.countP Call.is_recognize_face = 0
    ∧ (cycle env s).calls.countP Call.is_free_box_array = 0 := by
  obtain ⟨fbget, f2j, alloc, rgb, det, face, f2jpg⟩ := env
  cases fbget with
  | none => simp [cycle, cycle_body, release_buffer, CycleRecord.calls, hs,
      Call.enroll_face_ret, Call.is_enroll_face, Call.is_recognize_face,
      Call.is_free_box_array, List.countP_cons]
  | some fb =>
    by_cases hw : fb.width > 400 <;> by_cases hj : fb.format = .PIXFORMAT_JPEG <;>
      cases f2j <;> cases alloc <;> cases rgb <;> cases det <;> cases f2jpg <;>
      first
      | (exfalso
         have hw2 : fb.width ≤ 400 := by omega
         exact h fb _ _ rfl hw2 rfl rfl rfl)
      | simp [cycle, cycle_body, release_buffer, write_out, CycleRecord.calls, hw, hj, hs,
          Call.enroll_face_ret, Call.is_enroll_face, Call.is_recognize_face,
          Call.is_free_box_array, List.countP_cons]

/-- C19: `run_face_recognition` returns 0 whenever `recognize_face` is not invoked, which
is exactly when the aligned-face buffer cannot be allocated, when alignment fails, or when
the flag is set (an enrollment sample is taken); a match of identity 0 returns 0 as well,
so the result 0 does not tell these cases apart.  When the allocation fails the function
only logs (no `align_face`, `enroll_face` or `recognize_face`) and leaves `is_enrolling`;
otherwise the aligned-face buffer is freed exactly once, as the last call. -/
theorem run_face_recognition_zero :
    (∀ (env : FaceEnv) (is_enrolling : Int) (image_matrix net_boxes : Nat),
      ((run_face_recognition env is_enrolling image_matrix net_boxes).calls.countP
          Call.is_recognize_face = 0
        ↔ (env.aligned_face = none ∨ env.align_face ≠ ESP_OK ∨ is_enrolling = 1))
      ∧ ((run_face_recognition env is_enrolling image_matrix net_boxes).calls.countP
          Call.is_recognize_face = 0 →
        (run_face_recognition env is_enrolling image_matrix net_boxes).matched_id = 0))
    ∧ (∀ (env : FaceEnv) (is_enrolling : Int) (image_matrix net_boxes aligned_face : Nat),
        env.aligned_face = some aligned_face → env.align_face = ESP_OK → is_enrolling ≠ 1 →
        env.recognize_face = 0 →
        (run_face_recognition env is_enrolling image_matrix net_boxes).calls.countP
            Call.is_recognize_face = 1
        ∧ (run_face_recognition env is_enrolling image_matrix net_boxes).matched_id = 0)
    ∧ (∀ (env : FaceEnv) (is_enrolling : Int) (image_matrix net_boxes : Nat),
        env.aligned_face = none →
        (run_face_recognition env is_enrolling image_matrix net_boxes).calls
          = [Call.dl_matrix3du_alloc 1 FACE_WIDTH FACE_HEIGHT 3 none,
             Call.print Msg.could_not_allocate_face_recognition_buffer]
        ∧ (run_face_recognition env is_enrolling image_matrix net_boxes).is_enrolling
            = is_enrolling)
    ∧ (∀ (env : FaceEnv) (is_enrolling : Int) (image_matrix net_boxes aligned_face : Nat),
        env.aligned_face = some aligned_face →
        (run_face_recognition env is_enrolling image_matrix net_boxes).calls.count
            (Call.dl_matrix3du_free aligned_face) = 1
        ∧ (run_face_recognition env is_enrolling image_matrix net_boxes).calls.getLast?
            = some (Call.dl_matrix3du_free aligned_face)) := by
  refine ⟨?_, ?_, ?_, ?_⟩
  · intro env is_enrolling image_matrix net_boxes
    obtain ⟨aligned, align, enroll, tail, recog⟩ := env
    cases aligned <;>
      simp only [run_face_recognition] <;>
      (try split_ifs) <;>
      simp_all [Call.is_recognize_face, List.countP_cons]
  · intro env is_enrolling image_matrix net_boxes aligned_face halloc halign hflag hrec
    obtain ⟨aligned, align, enroll, tail, recog⟩ := env
    simp only at halloc halign hrec
    subst halloc halign hrec
    simp [run_face_recognition, hflag, Call.is_recognize_face, List.countP_cons]
  · intro env is_enrolling image_matrix net_boxes halloc
    obtain ⟨aligned, align, enroll, tail, recog⟩ := env
    simp only at halloc
    subst halloc
    simp [run_face_recognition]
  · intro env is_enrolling image_matrix net_boxes aligned_face halloc
    obtain ⟨aligned, align, enroll, tail, recog⟩ := env
    simp only at halloc
    subst halloc
    simp only [run_face_recognition]
    split_ifs <;> simp [List.count_cons, List.getLast?_append, List.getLast?_cons_cons]

/-- C19, on concrete calls: an enrollment sample, a failed alignment and a match of
identity 0 all return 0. -/
theorem run_face_recognition_zero_witness :
    (run_face_recognition face_ok 1 500 600).matched_id = 0
    ∧ (run_face_recognition face_not_aligned 0 500 600).matched_id = 0
    ∧ (run_face_recognition { face_ok with recognize_face := 0 } 0 500 600).matched_id = 0
    ∧ (run_face_recognition face_ok 0 500 600).calls.count (Call.dl_matrix3du_free 700) = 1 :=
  ⟨(run_face_recognition_zero.1 face_ok 1 500 600).2 (by decide),
    (run_face_recognition_zero.1 face_not_aligned 0 500 600).2 (by decide),
    (run_face_recognition_zero.2.1 { face_ok with recognize_face := 0 } 0 500 600 700
      rfl rfl (by decide) rfl).2,
    (run_face_recognition_zero.2.2.2 face_ok 0 500 600 700 rfl).1⟩

/-- The cycle on a frame wider than 400, call by call. -/
theorem cycle_oversize (env : CycleEnv) (s : EngineState) (fb : camera_fb_t)
    (hfb : env.esp_camera_fb_get = some fb) (hw : fb.width > 400)
    (hs : s._jpg_buf = none) :
    (fb.format ≠ .PIXFORMAT_JPEG →
      (cycle env s).body
        = [Call.esp_camera_fb_get (some fb), Call.frame2jpg fb 80 env.frame2jpg,
            Call.esp_camera_fb_return fb]
          ++ (if env.frame2jpg.isSome then [] else [Call.print Msg.jpeg_compression_failed])
      ∧ (cycle env s).release
          = (match env.frame2jpg with
             | some p => [Call.free (.bytes (.heap p.1))]
             | none => [])
      ∧ (cycle env s).at_release.fb = none
      ∧ (cycle env s).at_release._jpg_buf = env.frame2jpg.map (fun p => BytePtr.heap p.1)
      ∧ (cycle env s).finish.res = (if env.frame2jpg.isSome then s.res else ESP_FAIL))
    ∧ (fb.format = .PIXFORMAT_JPEG →
      (cycle env s).body = [Call.esp_camera_fb_get (some fb)]
      ∧ (cycle env s).release = [Call.esp_camera_fb_return fb]
      ∧ (cycle env s).at_release.fb = some fb
      ∧ (cycle env s).at_release._jpg_buf = some (.frame_buf fb.buf)
      ∧ (cycle env s).at_release._jpg_buf_len = fb.len
      ∧ (cycle env s).finish.res = s.res) := by
  obtain ⟨fbget, f2j, alloc, rgb, det, face, f2jpg⟩ := env
  simp only at hfb
  subst hfb
  by_cases hj : fb.format = .PIXFORMAT_JPEG <;> cases f2j <;>
    simp [cycle, cycle_body, release_buffer, write_out, hw, hj, hs]

/-- C13: in a cycle of `run_unlocker_engine` on a frame wider than 400 that is not JPEG,
the frame is encoded directly with `frame2jpg` (quality 80) and returned to the camera
right after, and the buffer written on success is what the release step frees; on a JPEG
frame the output is the frame's own bytes (`fb->buf`, `fb->len`), no encoder is called and
the frame is returned at the release step.  In neither case is an image matrix
allocated. -/
theorem oversize_policy (envs : List CycleEnv) (is_enrolling : Int)
    (mtmn_config : mtmn_config_t) (c : CycleRecord)
    (fb : camera_fb_t)
    (hc : c ∈ (run_unlocker_engine envs is_enrolling mtmn_config).cycles)
    (hfb : c.env.esp_camera_fb_get = some fb) (hw : fb.width > 400) :
    (fb.format ≠ .PIXFORMAT_JPEG →
      c.body
        = [Call.esp_camera_fb_get (some fb), Call.frame2jpg fb 80 c.env.frame2jpg,
            Call.esp_camera_fb_return fb]
          ++ (if c.env.frame2jpg.isSome then [] else [Call.print Msg.jpeg_compression_failed])
      ∧ c.at_release.fb = none
      ∧ (∀ addr len, c.env.frame2jpg = some (addr, len) →
          c.at_release._jpg_buf = some (.heap addr)
          ∧ c.release = [Call.free (.bytes (.heap addr))])
      ∧ (c.env.frame2jpg = none → c.release = []))
    ∧ (fb.format = .PIXFORMAT_JPEG →
      c.at_release._jpg_buf = some (.frame_buf fb.buf)
      ∧ c.at_release._jpg_buf_len = fb.len
      ∧ c.calls.countP Call.is_jpg_encode = 0
      ∧ c.body = [Call.esp_camera_fb_get (some fb)]
      ∧ c.release = [Call.esp_camera_fb_return fb])
    ∧ c.calls.countP Call.is_matrix_alloc = 0 := by
  obtain ⟨hs, _, hcyc⟩ := engine_loop_cycle_mem envs _ rfl rfl c hc
  have h := cycle_oversize c.env c.start fb hfb hw hs
  rw [← hcyc] at h
  refine ⟨?_, ?_, ?_⟩
  · intro hj
    obtain ⟨h1, h2, h3, h4, -⟩ := h.1 hj
    refine ⟨h1, h3, ?_, ?_⟩
    · intro addr len he
      rw [h2, h4, he]
      simp
    · intro he
      rw [h2, he]
  · intro hj
    obtain ⟨h1, h2, -, h4, h5, -⟩ := h.2 hj
    refine ⟨h4, h5, ?_, h1, h2⟩
    rw [CycleRecord.calls, h1, h2]
    simp [Call.is_jpg_encode, List.countP_cons]
  · by_cases hj : fb.format = .PIXFORMAT_JPEG
    · obtain ⟨h1, h2, -⟩ := h.2 hj
      rw [CycleRecord.calls, h1, h2]
      simp [Call.is_matrix_alloc, List.countP_cons]
    · obtain ⟨h1, h2, -⟩ := h.1 hj
      rw [CycleRecord.calls, h1, h2]
      cases c.env.frame2jpg <;> simp [Call.is_matrix_alloc, List.countP_cons]

/-- C13, on an 800x600 RGB565 frame and on an 800x600 JPEG frame. -/
theorem oversize_policy_witness :
    (cycle (env_face frame_svga_rgb565) (init_state 0 mtmn_config_ready)).release
      = [Call.free (.bytes (.heap 9000))]
    ∧ (cycle (env_face frame_svga_jpeg) (init_state 0 mtmn_config_ready)).release
      = [Call.esp_camera_fb_return frame_svga_jpeg]
    ∧ (cycle (env_face frame_svga_jpeg) (init_state 0 mtmn_config_ready)).calls.countP
        Call.is_matrix_alloc = 0 :=
  ⟨((oversize_policy [env_face frame_svga_rgb565] 0 mtmn_config_ready
        (cycle (env_face frame_svga_rgb565) (init_state 0 mtmn_config_ready)) frame_svga_rgb565
        (by decide) rfl (by decide)).1 (by decide)).2.2.1 9000 5000 rfl |>.2,
    ((oversize_policy [env_face frame_svga_jpeg] 0 mtmn_config_ready
        (cycle (env_face frame_svga_jpeg) (init_state 0 mtmn_config_ready)) frame_svga_jpeg
        (by decide) rfl (by decide)).2.1 rfl).2.2.2.2,
    (oversize_policy [env_face frame_svga_jpeg] 0 mtmn_config_ready
        (cycle (env_face frame_svga_jpeg) (init_state 0 mtmn_config_ready)) frame_svga_jpeg
        (by decide) rfl (by decide)).2.2⟩

/-- The function `run_face_recognition` calls no `fmt2jpg` and no `free`. -/
theorem run_face_recognition_calls_own (env : FaceEnv) (is_enrolling : Int)
    (image_matrix net_boxes : Nat) :
    (run_face_recognition env is_enrolling image_matrix net_boxes).calls.filter
        Call.is_fmt2jpg = []
    ∧ (run_face_recognition env is_enrolling image_matrix net_boxes).calls.countP
        Call.is_free_box_array = 0
    ∧ ∀ r, (run_face_recognition env is_enrolling image_matrix net_boxes).calls.count
        (Call.free r) = 0 := by
  obtain ⟨aligned, align, enroll, tail, recog⟩ := env
  cases aligned <;>
    simp only [run_face_recognition] <;>
    (try split_ifs) <;>
    simp [Call.is_fmt2jpg, Call.is_free_box_array, List.filter_cons, List.countP_cons,
      List.count_cons]

/-- The cycle that re-encodes the image matrix: the one `fmt2jpg` call, the frame
returned before the release step, the encoder's buffer freed at the release step. -/
theorem cycle_reencode (env : CycleEnv) (s : EngineState) (fb : camera_fb_t) (m : Nat)
    (hfb : env.esp_camera_fb_get = some fb) (hw : fb.width ≤ 400)
    (hm : env.dl_matrix3du_alloc = some m) (hrgb : env.fmt2rgb888 = true)
    (hre : env.face_detect.isSome = true ∨ fb.format ≠ .PIXFORMAT_JPEG)
    (hs : s._jpg_buf = none) :
    (cycle env s).calls.filter Call.is_fmt2jpg
      = [Call.fmt2jpg m (fb.width * fb.height * 3 % 2 ^ 32) (fb.width % 2 ^ 16)
          (fb.height % 2 ^ 16) .PIXFORMAT_RGB888 90 env.fmt2jpg]
    ∧ (cycle env s).body.filter Call.is_fb_return = [Call.esp_camera_fb_return fb]
    ∧ (cycle env s).at_release.fb = none
    ∧ (cycle env s).at_release._jpg_buf = env.fmt2jpg.map (fun p => BytePtr.heap p.1)
    ∧ (cycle env s).release
        = (match env.fmt2jpg with
           | some p => [Call.free (.bytes (.heap p.1))]
           | none => [])
    ∧ (∀ addr len, env.fmt2jpg = some (addr, len) →
        (cycle env s).at_release._jpg_buf_len = len)
    ∧ (cycle env s).finish.res = (if env.fmt2jpg.isSome then s.res else ESP_FAIL) := by
  obtain ⟨fbget, f2j, alloc, rgb, det, face, f2jpg⟩ := env
  simp only at hfb hm hrgb hre
  subst hfb hm hrgb
  have hw2 : ¬ fb.width > 400 := by omega
  have hown := fun ie im nb => (run_face_recognition_calls_own face ie im nb).1
  by_cases hj : fb.format = .PIXFORMAT_JPEG <;> cases det <;> cases f2jpg <;>
    (try simp [hj] at hre) <;>
    simp only [cycle, cycle_body, release_buffer, write_out, CycleRecord.calls, hw2, hj, hs,
      List.filter_append, hown, run_face_recognition_filter_fb_return, if_true, if_false,
      not_true_eq_false, not_false_eq_true, ne_eq, Option.isSome_some, Option.isSome_none,
      Bool.not_true, Bool.not_false, or_true, or_false, true_or, false_or,
      Bool.false_eq_true] <;>
    simp [Call.is_fmt2jpg, Call.is_fb_return, List.filter_cons] <;>
    (rintro addr len rfl; rfl)

/-- A successful cycle on a frame that is not JPEG ends with an encoder's buffer as its
output, which the release step frees. -/
theorem cycle_non_jpeg_output (env : CycleEnv) (s : EngineState) (fb : camera_fb_t)
    (hfb : env.esp_camera_fb_get = some fb) (hj : fb.format ≠ .PIXFORMAT_JPEG)
    (hs : s._jpg_buf = none) (hok : (cycle env s).finish.res = ESP_OK) :
    ∃ addr, (cycle env s).at_release._jpg_buf = some (.heap addr)
      ∧ (cycle env s).release = [Call.free (.bytes (.heap addr))] := by
  obtain ⟨fbget, f2j, alloc, rgb, det, face, f2jpg⟩ := env
  simp only at hfb
  subst hfb
  by_cases hw : fb.width > 400 <;>
    cases f2j <;> cases alloc <;> cases rgb <;> cases det <;> cases f2jpg <;>
    simp [cycle, cycle_body, release_buffer, write_out, hw, hj, hs, ESP_OK, ESP_FAIL]
      at hok ⊢

/-- C11: in a cycle of `run_unlocker_engine` on a frame of width at most 400 whose image
matrix was built (allocated and filled by `fmt2rgb888`), if the detector found faces or the
frame is not JPEG, `fmt2jpg` is called exactly once, on the image matrix, as RGB888 with
quality 90 and the length `fb->width * fb->height * 3` (in `size_t` arithmetic, which is
`width * height * 3` whenever that fits 32 bits); the frame is returned before the release
step, and on encode success the output is the encoder's fresh buffer, which the release
step frees.  So a frame that is not JPEG never leaves a successful cycle as its original
bytes. -/
theorem reencode_rule :
    (∀ (envs : List CycleEnv) (is_enrolling : Int)
    (mtmn_config : mtmn_config_t) (c : CycleRecord) (fb : camera_fb_t)
        (m : Nat),
      c ∈ (run_unlocker_engine envs is_enrolling mtmn_config).cycles →
      c.env.esp_camera_fb_get = some fb → fb.width ≤ 400 →
      c.env.dl_matrix3du_alloc = some m → c.env.fmt2rgb888 = true →
      (c.env.face_detect.isSome = true ∨ fb.format ≠ .PIXFORMAT_JPEG) →
      c.calls.filter Call.is_fmt2jpg
        = [Call.fmt2jpg m (fb.width * fb.height * 3 % 2 ^ 32) fb.width
            (fb.height % 2 ^ 16) .PIXFORMAT_RGB888 90 c.env.fmt2jpg]
      ∧ (fb.width * fb.height * 3 < 2 ^ 32 →
          c.calls.filter Call.is_fmt2jpg
            = [Call.fmt2jpg m (fb.width * fb.height * 3) fb.width
                (fb.height % 2 ^ 16) .PIXFORMAT_RGB888 90 c.env.fmt2jpg])
      ∧ c.body.filter Call.is_fb_return = [Call.esp_camera_fb_return fb]
      ∧ c.at_release.fb = none
      ∧ (∀ addr len, c.env.fmt2jpg = some (addr, len) →
          c.at_release._jpg_buf = some (.heap addr)
          ∧ c.at_release._jpg_buf_len = len
          ∧ c.release = [Call.free (.bytes (.heap addr))]))
    ∧ (∀ (envs : List CycleEnv) (is_enrolling : Int)
    (mtmn_config : mtmn_config_t) (c : CycleRecord) (fb : camera_fb_t),
      c ∈ (run_unlocker_engine envs is_enrolling mtmn_config).cycles →
      c.env.esp_camera_fb_get = some fb → fb.format ≠ .PIXFORMAT_JPEG →
      c.finish.res = ESP_OK →
      ∃ addr, c.at_release._jpg_buf = some (.heap addr)
        ∧ c.release = [Call.free (.bytes (.heap addr))]) := by
  refine ⟨?_, ?_⟩
  · intro envs is_enrolling mtmn_config c fb m hc hfb hw hm hrgb hre
    obtain ⟨hs, _, hcyc⟩ := engine_loop_cycle_mem envs _ rfl rfl c hc
    have h := cycle_reencode c.env c.start fb m hfb hw hm hrgb hre hs
    rw [← hcyc] at h
    obtain ⟨h1, h2, h3, h4, h5, h6, -⟩ := h
    have hwm : fb.width % 2 ^ 16 = fb.width := Nat.mod_eq_of_lt (by omega)
    rw [hwm] at h1
    refine ⟨h1, ?_, h2, h3, ?_⟩
    · intro hfit
      rw [h1, Nat.mod_eq_of_lt hfit]
    · intro addr len he
      refine ⟨?_, h6 addr len he, ?_⟩
      · rw [h4, he]
        rfl
      · rw [h5, he]
  · intro envs is_enrolling mtmn_config c fb hc hfb hj hok
    obtain ⟨hs, _, hcyc⟩ := engine_loop_cycle_mem envs _ rfl rfl c hc
    rw [hcyc] at hok
    have h := cycle_non_jpeg_output c.env c.start fb hfb hj hs hok
    rw [← hcyc] at h
    exact h

/-- C11, on a 320x240 RGB565 frame with a face: one `fmt2jpg` call of length 230400. -/
theorem reencode_rule_witness :
    (cycle (env_face frame_qvga_rgb565) (init_state 0 mtmn_config_ready)).calls.filter
        Call.is_fmt2jpg
      = [Call.fmt2jpg 500 230400 320 240 .PIXFORMAT_RGB888 90 (some (9100, 6000))]
    ∧ (cycle (env_face frame_qvga_rgb565) (init_state 0 mtmn_config_ready)).release
      = [Call.free (.bytes (.heap 9100))] :=
  have h := reencode_rule.1 [env_face frame_qvga_rgb565] 0 mtmn_config_ready
    (cycle (env_face frame_qvga_rgb565) (init_state 0 mtmn_config_ready)) frame_qvga_rgb565 500
    (by decide) rfl (by decide) rfl rfl (Or.inl rfl)
  ⟨h.2.1 (by decide), (h.2.2.2.2 9100 6000 rfl).2.2⟩

/-- A cycle in which a face is found frees each of the four blocks of the box array
exactly once, right after the calls of `run_face_recognition`. -/
theorem cycle_boxes_freed (env : CycleEnv) (s : EngineState) (fb : camera_fb_t) (m b : Nat)
    (hfb : env.esp_camera_fb_get = some fb) (hw : fb.width ≤ 400)
    (hm : env.dl_matrix3du_alloc = some m) (hrgb : env.fmt2rgb888 = true)
    (hdet : env.face_detect = some b) (hs : s._jpg_buf = none) :
    (∃ pre post, (cycle env s).calls
        = pre ++ (run_face_recognition env.face s.is_enrolling m b).calls
          ++ [Call.free (.score b), Call.free (.box b), Call.free (.landmark b),
              Call.free (.boxes b)] ++ post)
    ∧ (cycle env s).calls.count (Call.free (.score b)) = 1
    ∧ (cycle env s).calls.count (Call.free (.box b)) = 1
    ∧ (cycle env s).calls.count (Call.free (.landmark b)) = 1
    ∧ (cycle env s).calls.count (Call.free (.boxes b)) = 1
    ∧ (cycle env s).calls.countP Call.is_free_box_array = 4 := by
  obtain ⟨hbody, hrel, -⟩ := cycle_face_path env s fb m b hfb hw hm hrgb hdet hs
  have hown := run_face_recognition_calls_own env.face s.is_enrolling m b
  rw [CycleRecord.calls, hbody, hrel]
  refine ⟨⟨[Call.esp_camera_fb_get (some fb),
      Call.dl_matrix3du_alloc 1 fb.width fb.height 3 (some m),
      Call.fmt2rgb888 fb.buf fb.len fb.format m true,
      Call.face_detect m s.mtmn_config (some b)],
    [Call.fmt2jpg m (fb.width * fb.height * 3 % 2 ^ 32) (fb.width % 2 ^ 16)
      (fb.height % 2 ^ 16) .PIXFORMAT_RGB888 90 env.fmt2jpg]
      ++ (if env.fmt2jpg.isSome then [] else [Call.print Msg.fmt2jpg_failed])
      ++ [Call.esp_camera_fb_return fb, Call.dl_matrix3du_free m]
      ++ (match env.fmt2jpg with
           | some p => [Call.free (.bytes (.heap p.1))]
           | none => []), by simp⟩, ?_⟩
  simp only [List.count_append, List.countP_append, hown.2.1, hown.2.2]
  cases env.fmt2jpg <;> simp [List.count_cons, List.countP_cons, Call.is_free_box_array]

/-- A cycle that allocates no image matrix frees none. -/
theorem cycle_no_matrix (env : CycleEnv) (s : EngineState) (hs : s._jpg_buf = none)
    (h : env.esp_camera_fb_get = none
      ∨ ∃ fb, env.esp_camera_fb_get = some fb
          ∧ (fb.width > 400 ∨ env.dl_matrix3du_alloc = none)) :
    (cycle env s).calls.countP Call.is_matrix_free = 0 := by
  obtain ⟨fbget, f2j, alloc, rgb, det, face, f2jpg⟩ := env
  cases fbget with
  | none => simp [cycle, cycle_body, release_buffer, CycleRecord.calls, hs,
      Call.is_matrix_free, List.countP_cons]
  | some fb =>
    by_cases hw : fb.width > 400 <;> by_cases hj : fb.format = .PIXFORMAT_JPEG <;>
      cases f2j <;> cases alloc <;>
      (try simp [hw] at h) <;>
      simp [cycle, cycle_body, release_buffer, write_out, CycleRecord.calls, hw, hj, hs,
        Call.is_matrix_free, List.countP_cons]

/-- C12: in a cycle of `run_unlocker_engine`, an image matrix that was allocated is freed
exactly once whichever path the cycle takes (the aligned-face buffer being another block),
and a box array returned by `face_detect` has each of its four blocks freed exactly once,
right after the calls of `run_face_recognition`; a cycle that allocated no image matrix
calls no `dl_matrix3du_free`, and a cycle that got no box array frees no such block. -/
theorem matrix_and_boxes_freed_once (envs : List CycleEnv) (is_enrolling : Int)
    (mtmn_config : mtmn_config_t)
    (c : CycleRecord) (hc : c ∈ (run_unlocker_engine envs is_enrolling mtmn_config).cycles) :
    (∀ fb m, c.env.esp_camera_fb_get = some fb → fb.width ≤ 400 →
        c.env.dl_matrix3du_alloc = some m → c.env.face.aligned_face ≠ some m →
        c.calls.count (Call.dl_matrix3du_free m) = 1)
    ∧ (∀ fb m b, c.env.esp_camera_fb_get = some fb → fb.width ≤ 400 →
        c.env.dl_matrix3du_alloc = some m → c.env.fmt2rgb888 = true →
        c.env.face_detect = some b →
        (∃ pre post, c.calls
          = pre ++ (run_face_recognition c.env.face c.start.is_enrolling m b).calls
            ++ [Call.free (.score b), Call.free (.box b), Call.free (.landmark b),
                Call.free (.boxes b)] ++ post)
        ∧ c.calls.count (Call.free (.score b)) = 1
        ∧ c.calls.count (Call.free (.box b)) = 1
        ∧ c.calls.count (Call.free (.landmark b)) = 1
        ∧ c.calls.count (Call.free (.boxes b)) = 1
        ∧ c.calls.countP Call.is_free_box_array = 4)
    ∧ ((c.env.esp_camera_fb_get = none
          ∨ ∃ fb, c.env.esp_camera_fb_get = some fb
              ∧ (fb.width > 400 ∨ c.env.dl_matrix3du_alloc = none)) →
        c.calls.countP Call.is_matrix_free = 0)
    ∧ ((∀ fb m b, c.env.esp_camera_fb_get = some fb → fb.width ≤ 400 →
          c.env.dl_matrix3du_alloc = some m → c.env.fmt2rgb888 = true →
          c.env.face_detect ≠ some b) →
        c.calls.countP Call.is_free_box_array = 0) := by
  obtain ⟨hs, _, hcyc⟩ := engine_loop_cycle_mem envs _ rfl rfl c hc
  have h1 := fun fb m a1 a2 a3 a4 => cycle_matrix_freed c.env c.start fb m a1 a2 a3 a4 hs
  have h2 := fun fb m b a1 a2 a3 a4 a5 =>
    cycle_boxes_freed c.env c.start fb m b a1 a2 a3 a4 a5 hs
  have h3 := cycle_no_matrix c.env c.start hs
  have h4 := fun a => (cycle_without_face c.env c.start hs a).2.2.2.2
  rw [← hcyc] at h1 h2 h3 h4
  exact ⟨h1, h2, h3, h4⟩

/-- C12, on a cycle that finds a face in a 320x240 frame. -/
theorem matrix_and_boxes_freed_once_witness :
    (cycle (env_face frame_qvga_rgb565) (init_state 0 mtmn_config_ready)).calls.count
        (Call.dl_matrix3du_free 500) = 1
    ∧ (cycle (env_face frame_qvga_rgb565) (init_state 0 mtmn_config_ready)).calls.count
        (Call.free (.boxes 600)) = 1 :=
  have h := matrix_and_boxes_freed_once [env_face frame_qvga_rgb565] 0 mtmn_config_ready
    (cycle (env_face frame_qvga_rgb565) (init_state 0 mtmn_config_ready)) (by decide)
  ⟨h.1 frame_qvga_rgb565 500 rfl (by decide) rfl (by decide),
    (h.2.1 frame_qvga_rgb565 500 600 rfl (by decide) rfl rfl rfl).2.2.2.2.1⟩

/-- Every cycle of a loop entered with `fb == NULL` starts with `fb == NULL`. -/
theorem engine_loop_start_fb (envs : List CycleEnv) (s : EngineState)
    (hs : s.fb = none) (c : CycleRecord) (hc : c ∈ (engine_loop envs s).cycles) :
    c.start.fb = none := by
  induction envs generalizing s with
  | nil => simp [engine_loop] at hc
  | cons env envs ih =>
    simp only [engine_loop] at hc
    split_ifs at hc with hres
    · simp only [List.mem_singleton] at hc
      subst hc
      exact hs
    · simp only [List.mem_cons] at hc
      rcases hc with hc | hc
      · subst hc
        exact hs
      · exact ih _ (cycle_finish_null env s).1 hc

/-- The function `run_face_recognition` calls no JPEG encoder. -/
theorem run_face_recognition_encoded_buffer (env : FaceEnv) (is_enrolling : Int)
    (image_matrix net_boxes : Nat) :
    (run_face_recognition env is_enrolling image_matrix net_boxes).calls.filterMap
      Call.encoded_buffer = [] := by
  obtain ⟨aligned, align, enroll, tail, recog⟩ := env
  cases aligned <;>
    simp only [run_face_recognition] <;>
    (try split_ifs) <;>
    simp [Call.encoded_buffer, List.filterMap_cons]

/-- The release step frees nothing but the buffer an encoder wrote in this cycle. -/
theorem cycle_frees_encoded (env : CycleEnv) (s : EngineState) (hs : s._jpg_buf = none) :
    (cycle env s).release.filter Call.is_free_bytes
      = ((cycle env s).body.filterMap Call.encoded_buffer).map
          (fun addr => Call.free (.bytes (.heap addr))) := by
  obtain ⟨fbget, f2j, alloc, rgb, det, face, f2jpg⟩ := env
  cases fbget with
  | none => simp [cycle, cycle_body, release_buffer, hs, Call.encoded_buffer]
  | some fb =>
    by_cases hw : fb.width > 400 <;> by_cases hj : fb.format = .PIXFORMAT_JPEG <;>
      cases f2j <;> cases alloc <;> cases rgb <;> cases det <;> cases f2jpg <;>
      simp only [cycle, cycle_body, release_buffer, write_out, hw, hj, hs,
        List.filterMap_append, run_face_recognition_encoded_buffer, if_true, if_false,
        not_true_eq_false, not_false_eq_true, ne_eq, Option.isSome_some, Option.isSome_none,
        Bool.not_true, Bool.not_false, or_true, or_false, true_or, false_or,
        Bool.false_eq_true] <;>
      simp [Call.encoded_buffer, Call.is_free_bytes, List.filterMap_cons, List.filter_cons]

/-- C17: every cycle of `run_unlocker_engine` starts, and ends after its release step,
with both `fb` and `_jpg_buf` NULL, so no pointer of an earlier cycle is carried over; the
buffers freed at the release step are exactly the buffers a successful encoder call wrote
in the same cycle, and when the encoder call of the cycle fails (leaving its
out-parameter unwritten) the release step frees nothing. -/
theorem loop_invariant (envs : List CycleEnv) (is_enrolling : Int)
    (mtmn_config : mtmn_config_t) (c : CycleRecord)
    (hc : c ∈ (run_unlocker_engine envs is_enrolling mtmn_config).cycles) :
    c.start.fb = none ∧ c.start._jpg_buf = none
    ∧ c.finish.fb = none ∧ c.finish._jpg_buf = none
    ∧ c.release.filter Call.is_free_bytes
        = (c.body.filterMap Call.encoded_buffer).map
            (fun addr => Call.free (.bytes (.heap addr)))
    ∧ (∀ p, Call.free (.bytes p) ∈ c.release →
        ∃ addr, p = .heap addr ∧ addr ∈ c.body.filterMap Call.encoded_buffer)
    ∧ (∀ fb, c.env.esp_camera_fb_get = some fb → encode_fails c.env fb = true →
        c.release = []) := by
  obtain ⟨hs, _, hcyc⟩ := engine_loop_cycle_mem envs _ rfl rfl c hc
  have hfb := engine_loop_start_fb envs _ rfl c hc
  have hnull := cycle_finish_null c.env c.start
  have hfree := cycle_frees_encoded c.env c.start hs
  have hrel := (cycle_release_step c.env c.start hs).2.2.2.2
  rw [← hcyc] at hnull hfree hrel
  refine ⟨hfb, hs, hnull.1, hnull.2, hfree, ?_, fun fb h1 h2 => hrel (Or.inr ⟨fb, h1, h2⟩)⟩
  intro p hp
  have hmem : Call.free (.bytes p) ∈ c.release.filter Call.is_free_bytes :=
    List.mem_filter.2 ⟨hp, rfl⟩
  rw [hfree, List.mem_map] at hmem
  obtain ⟨addr, h1, h2⟩ := hmem
  refine ⟨addr, ?_, h1⟩
  injection h2 with h3
  injection h3 with h4
  exact h4.symm

/-- C17, on the second cycle of a run, after a cycle that freed an encoder's buffer. -/
theorem loop_invariant_witness :
    (cycle (env_encode_fails frame_qvga_rgb565)
        (cycle (env_face frame_qvga_rgb565) (init_state 0
            mtmn_config_ready)).finish).start._jpg_buf = none
    ∧ (cycle (env_encode_fails frame_qvga_rgb565)
        (cycle (env_face frame_qvga_rgb565) (init_state 0 mtmn_config_ready)).finish).release = []
            :=
  have h := loop_invariant [env_face frame_qvga_rgb565, env_encode_fails frame_qvga_rgb565] 0
      mtmn_config_ready
    (cycle (env_encode_fails frame_qvga_rgb565)
      (cycle (env_face frame_qvga_rgb565) (init_state 0 mtmn_config_ready)).finish) (by decide)
  ⟨h.2.1, h.2.2.2.2.2.2 frame_qvga_rgb565 rfl (by decide)⟩

/-- A cycle entered with `res == ESP_OK` ends with `ESP_FAIL` if it meets a failure and
with `ESP_OK` if it meets none. -/
theorem cycle_res (env : CycleEnv) (s : EngineState) (hr : s.res = ESP_OK) :
    (cycle_fails env = true → (cycle env s).finish.res = ESP_FAIL)
    ∧ (cycle_fails env = false → (cycle env s).finish.res = ESP_OK) := by
  obtain ⟨fbget, f2j, alloc, rgb, det, face, f2jpg⟩ := env
  cases fbget with
  | none => simp [cycle, (release_buffer_keeps _).1, cycle_body, cycle_fails]
  | some fb =>
    by_cases hw : fb.width > 400 <;> by_cases hj : fb.format = .PIXFORMAT_JPEG <;>
      cases f2j <;> cases alloc <;> cases rgb <;> cases det <;> cases f2jpg <;>
      simp [cycle, (release_buffer_keeps _).1, cycle_body, write_out, cycle_fails,
        conversion_fails, encode_fails, hw, hj, hr]

/-- The loop, entered with `res == ESP_OK`, by the outcomes it is given. -/
theorem engine_loop_outcome (envs : List CycleEnv) (s : EngineState) (hr : s.res = ESP_OK) :
    (∀ r, (engine_loop envs s).returned = some r →
      r = ESP_FAIL
      ∧ ∃ pre c, (engine_loop envs s).cycles = pre ++ [c]
          ∧ cycle_fails c.env = true ∧ ∀ c' ∈ pre, cycle_fails c'.env = false)
    ∧ ((∀ env ∈ envs, cycle_fails env = false) →
      (engine_loop envs s).returned = none
      ∧ (engine_loop envs s).cycles.length = envs.length)
    ∧ (∀ pre env rest, envs = pre ++ env :: rest →
      (∀ x ∈ pre, cycle_fails x = false) → cycle_fails env = true →
      (engine_loop envs s).returned = some ESP_FAIL
      ∧ (engine_loop envs s).cycles.length = pre.length + 1) := by
  induction envs generalizing s with
  | nil =>
    refine ⟨?_, ?_, ?_⟩
    · intro r h
      simp [engine_loop] at h
    · intro _
      simp [engine_loop]
    · intro pre env rest h
      simp at h
  | cons e envs ih =>
    have hcr := cycle_res e s hr
    by_cases hf : cycle_fails e = true
    · have hres : (cycle e s).finish.res = ESP_FAIL := hcr.1 hf
      have hne : (cycle e s).finish.res ≠ ESP_OK := by rw [hres]; decide
      refine ⟨?_, ?_, ?_⟩
      · intro r h
        simp only [engine_loop, if_pos hne, Option.some.injEq] at h ⊢
        refine ⟨by rw [← h, hres], [], cycle e s, rfl, hf, by simp⟩
      · intro h
        have := h e (by simp)
        rw [hf] at this
        exact absurd this (by decide)
      · intro pre env rest h hpre _
        cases pre with
        | nil =>
          simp only [engine_loop, if_pos hne]
          simp [hres]
        | cons p pre =>
          simp only [List.cons_append, List.cons.injEq] at h
          have := hpre p (by simp)
          rw [← h.1, hf] at this
          exact absurd this (by decide)
    · have hf2 : cycle_fails e = false := by simpa using hf
      have hres : (cycle e s).finish.res = ESP_OK := hcr.2 hf2
      have hok : ¬ (cycle e s).finish.res ≠ ESP_OK := by simp [hres]
      obtain ⟨i1, i2, i3⟩ := ih (cycle e s).finish hres
      refine ⟨?_, ?_, ?_⟩
      · intro r h
        simp only [engine_loop, if_neg hok] at h ⊢
        obtain ⟨h1, pre, c, h2, h3, h4⟩ := i1 r h
        refine ⟨h1, cycle e s :: pre, c, by simp [h2], h3, ?_⟩
        intro c' hc'
        simp only [List.mem_cons] at hc'
        rcases hc' with hc' | hc'
        · rw [hc']
          exact hf2
        · exact h4 c' hc'
      · intro h
        simp only [engine_loop, if_neg hok]
        have k := i2 (fun env henv => h env (by simp [henv]))
        exact ⟨k.1, by simp [k.2]⟩
      · intro pre env rest h hpre hfail
        cases pre with
        | nil =>
          simp only [List.nil_append, List.cons.injEq] at h
          rw [h.1, hfail] at hf2
          exact absurd hf2 (by decide)
        | cons p pre =>
          simp only [List.cons_append, List.cons.injEq] at h
          simp only [engine_loop, if_neg hok]
          have k := i3 pre env rest h.2 (fun x hx => hpre x (by simp [hx])) hfail
          exact ⟨k.1, by simp [k.2]⟩

/-- C18: `run_unlocker_engine` never returns `ESP_OK`.  Whenever it returns, the status is
`ESP_FAIL`, the last cycle is the first one to meet a failure (no frame, or a failed matrix
allocation, RGB conversion or JPEG encoding) and every earlier cycle met none.  If no cycle
fails, the loop runs through all the outcomes it is given without returning; and it does
return at the first failing cycle. -/
theorem engine_returns_only_fail (envs : List CycleEnv) (is_enrolling : Int)
    (mtmn_config : mtmn_config_t) :
    (run_unlocker_engine envs is_enrolling mtmn_config).returned ≠ some ESP_OK
    ∧ (∀ r, (run_unlocker_engine envs is_enrolling mtmn_config).returned = some r →
        r = ESP_FAIL
        ∧ ∃ pre c, (run_unlocker_engine envs is_enrolling mtmn_config).cycles = pre ++ [c]
            ∧ cycle_fails c.env = true ∧ ∀ c' ∈ pre, cycle_fails c'.env = false)
    ∧ ((∀ env ∈ envs, cycle_fails env = false) →
        (run_unlocker_engine envs is_enrolling mtmn_config).returned = none
        ∧ (run_unlocker_engine envs is_enrolling mtmn_config).cycles.length = envs.length)
    ∧ (∀ pre env rest, envs = pre ++ env :: rest →
        (∀ x ∈ pre, cycle_fails x = false) → cycle_fails env = true →
        (run_unlocker_engine envs is_enrolling mtmn_config).returned = some ESP_FAIL
        ∧ (run_unlocker_engine envs is_enrolling mtmn_config).cycles.length = pre.length + 1) := by
  obtain ⟨h1, h2, h3⟩ := engine_loop_outcome envs (init_state is_enrolling mtmn_config) rfl
  refine ⟨?_, h1, h2, h3⟩
  intro h
  have := (h1 _ h).1
  exact absurd this (by decide)

/-- C18, on a run of two good cycles followed by a failing one and an unused one. -/
theorem engine_returns_only_fail_witness :
    (run_unlocker_engine [env_face frame_qvga_rgb565, env_no_face frame_qvga_jpeg,
        env_rgb_fails frame_qvga_jpeg, env_no_frame] 0 mtmn_config_ready).returned = some ESP_FAIL
    ∧ (run_unlocker_engine [env_face frame_qvga_rgb565, env_no_face frame_qvga_jpeg,
        env_rgb_fails frame_qvga_jpeg, env_no_frame] 0 mtmn_config_ready).cycles.length = 3
    ∧ (run_unlocker_engine [env_face frame_qvga_rgb565, env_no_face frame_qvga_jpeg] 0
        mtmn_config_ready).returned
        = none :=
  ⟨((engine_returns_only_fail _ 0 mtmn_config_ready).2.2.2
      [env_face frame_qvga_rgb565, env_no_face frame_qvga_jpeg]
      (env_rgb_fails frame_qvga_jpeg) [env_no_frame] rfl (by decide) (by decide)).1,
    ((engine_returns_only_fail _ 0 mtmn_config_ready).2.2.2
      [env_face frame_qvga_rgb565, env_no_face frame_qvga_jpeg]
      (env_rgb_fails frame_qvga_jpeg) [env_no_frame] rfl (by decide) (by decide)).2,
    ((engine_returns_only_fail [env_face frame_qvga_rgb565, env_no_face frame_qvga_jpeg]
      0 mtmn_config_ready).2.2.1 (by decide)).1⟩

/-- A cycle does not write `mtmn_config`, and hands the value it found to `face_detect`. -/
theorem cycle_config (env : CycleEnv) (s : EngineState) (hs : s._jpg_buf = none) :
    (cycle env s).finish.mtmn_config = s.mtmn_config
    ∧ ∀ m config ret, Call.face_detect m config ret ∈ (cycle env s).calls →
        config = s.mtmn_config := by
  obtain ⟨fbget, f2j, alloc, rgb, det, face, f2jpg⟩ := env
  cases fbget with
  | none => simp [cycle, cycle_body, release_buffer, CycleRecord.calls, hs]
  | some fb =>
    by_cases hw : fb.width > 400 <;> by_cases hj : fb.format = .PIXFORMAT_JPEG <;>
      cases f2j <;> cases alloc <;> cases rgb <;> cases det <;> cases f2jpg <;>
      simp [cycle, cycle_body, release_buffer, write_out, CycleRecord.calls, hw, hj, hs,
        run_face_recognition_not_mem_face_detect] <;>
      (intro m config ret _ h _; exact h)

/-- Every cycle of the loop starts and ends with the `mtmn_config` the loop was entered
with, every `face_detect` call gets it, and it is there when the loop is left. -/
theorem engine_loop_config (envs : List CycleEnv) (s : EngineState)
    (hs : s._jpg_buf = none) :
    (∀ c ∈ (engine_loop envs s).cycles,
      c.start.mtmn_config = s.mtmn_config ∧ c.finish.mtmn_config = s.mtmn_config
      ∧ ∀ m config ret, Call.face_detect m config ret ∈ c.calls → config = s.mtmn_config)
    ∧ (engine_loop envs s).final.mtmn_config = s.mtmn_config := by
  induction envs generalizing s with
  | nil => simp [engine_loop]
  | cons env envs ih =>
    have hk := cycle_config env s hs
    have hnext := ih (cycle env s).finish (cycle_finish_null env s).2
    simp only [engine_loop]
    split_ifs with hres
    · refine ⟨?_, hk.1⟩
      intro c hc
      simp only [List.mem_singleton] at hc
      subst hc
      exact ⟨rfl, hk.1, hk.2⟩
    · refine ⟨?_, by rw [hnext.2, hk.1]⟩
      intro c hc
      simp only [List.mem_cons] at hc
      rcases hc with hc | hc
      · subst hc
        exact ⟨rfl, hk.1, hk.2⟩
      · have h := hnext.1 c hc
        rw [hk.1] at h
        exact h

/-- The loop runs its first cycle on the first outcomes it is given. -/
theorem engine_loop_first (env : CycleEnv) (envs : List CycleEnv) (s : EngineState) :
    ∃ cs, (engine_loop (env :: envs) s).cycles = cycle env s :: cs := by
  simp only [engine_loop]
  split_ifs
  · exact ⟨[], rfl⟩
  · exact ⟨_, rfl⟩

/-- C16: `startMainEngine` calls `mtmn_init`, then `face_id_init` with capacity 7
(`FACE_ID_SAVE_NUMBER`) and confirm-count 5 (`ENROLL_CONFIRM_TIMES`), and only then
`run_unlocker_engine`: `face_id_init` finds the configuration `mtmn_init` wrote and the
store as it was, and the engine loop is entered with that configuration and a store of
capacity 7 and confirm-count 5, and runs its cycles from there.  The loop
never modifies the configuration: every cycle starts and ends with it, every `face_detect`
call is handed it (and a cycle that builds the image matrix makes that call), and it is
still in `mtmn_config` when the engine returns. -/
theorem bootstrap_order (envs : List CycleEnv) (g : Globals) :
    (startMainEngine envs g).calls
      = [BootCall.mtmn_init, BootCall.face_id_init 7 5, BootCall.run_unlocker_engine]
    ∧ (startMainEngine envs g).at_face_id_init = mtmn_init g
    ∧ (startMainEngine envs g).at_face_id_init.id_list = g.id_list
    ∧ (startMainEngine envs g).at_engine_entry.mtmn_config = (mtmn_init g).mtmn_config
    ∧ (startMainEngine envs g).at_engine_entry.id_list = face_id_init g.id_list 7 5
    ∧ (startMainEngine envs g).at_engine_entry.id_list.size = 7
    ∧ (startMainEngine envs g).at_engine_entry.id_list.confirm_times = 5
    ∧ (startMainEngine envs g).run
        = run_unlocker_engine envs g.is_enrolling (mtmn_init g).mtmn_config
    ∧ (∀ env rest, envs = env :: rest →
        ∃ cs, (startMainEngine envs g).run.cycles
          = cycle env (init_state g.is_enrolling (mtmn_init g).mtmn_config) :: cs)
    ∧ (∀ c ∈ (startMainEngine envs g).run.cycles,
        c.start.mtmn_config = (mtmn_init g).mtmn_config
        ∧ c.finish.mtmn_config = (mtmn_init g).mtmn_config
        ∧ (∀ m config ret, Call.face_detect m config ret ∈ c.calls →
            config = (mtmn_init g).mtmn_config)
        ∧ (∀ fb m, c.env.esp_camera_fb_get = some fb → fb.width ≤ 400 →
            c.env.dl_matrix3du_alloc = some m → c.env.fmt2rgb888 = true →
            Call.face_detect m (mtmn_init g).mtmn_config c.env.face_detect ∈ c.calls))
    ∧ (startMainEngine envs g).mtmn_config_at_exit = (mtmn_init g).mtmn_config := by
  have hcfg := engine_loop_config envs (init_state g.is_enrolling (mtmn_init g).mtmn_config)
    rfl
  refine ⟨by simp [startMainEngine, FACE_ID_SAVE_NUMBER, ENROLL_CONFIRM_TIMES], rfl, rfl, rfl,
    by simp [startMainEngine, face_id_init, FACE_ID_SAVE_NUMBER, ENROLL_CONFIRM_TIMES],
    rfl, rfl, rfl, ?_, ?_, hcfg.2⟩
  · intro env rest henvs
    subst henvs
    exact engine_loop_first env rest _
  · intro c hc
    obtain ⟨h1, h2, h3⟩ := hcfg.1 c hc
    refine ⟨h1, h2, h3, ?_⟩
    intro fb m hfb hw hm hrgb
    obtain ⟨_, _, hcyc⟩ := engine_loop_cycle_mem envs _ rfl rfl c hc
    have hd := (cycle_face_detect c.env c.start fb hfb).2.1 hw m hm hrgb
    rw [← hcyc, h1] at hd
    have hmem : Call.face_detect m (mtmn_init g).mtmn_config c.env.face_detect
        ∈ c.calls.filter Call.is_face_detect := by
      rw [hd]
      exact List.mem_singleton.2 rfl
    exact (List.mem_filter.1 hmem).1

/-- C16, on a run from the variables as loaded: the detector is called in the first
cycle, with the configuration `mtmn_init` wrote and not the zeroes of the initialiser. -/
theorem bootstrap_order_witness :
    (startMainEngine [env_no_face frame_qvga_jpeg, env_no_frame] globals_at_load).calls
      = [BootCall.mtmn_init, BootCall.face_id_init 7 5, BootCall.run_unlocker_engine]
    ∧ (startMainEngine [env_no_face frame_qvga_jpeg, env_no_frame]
        globals_at_load).run.calls.filter Call.is_face_detect
      = [Call.face_detect 500 mtmn_config_ready none]
    ∧ mtmn_config_ready ≠ globals_at_load.mtmn_config
    ∧ (startMainEngine [env_no_face frame_qvga_jpeg, env_no_frame]
        globals_at_load).mtmn_config_at_exit = mtmn_config_ready :=
  ⟨(bootstrap_order _ globals_at_load).1, by decide, by decide,
    (bootstrap_order [env_no_face frame_qvga_jpeg, env_no_frame]
      globals_at_load).2.2.2.2.2.2.2.2.2.2⟩

end Unlocker
